import Mathlib

/-!
# PySuperTuxKart binding layer (`src/pystk/cpp/pystk.cpp`)

A shallow embedding of the binding layer that exposes the SuperTuxKart engine
as a step-able simulation.  The wrapper's own state (the static counters, the
session object's fields, the render-data buffers) is modelled explicitly.  The
wrapped engine is external: every call into it is appended to a call log, the
values the wrapper reads back from it are inputs (`Engine`), and a dereference
of a null engine pointer is the failure `Error.null_pointer`.

A value of type `float` is the rational number it stands for; the sums and
differences that the wrapper computes on such values are rounded to binary32
(`round32`).
-/

namespace PySTK

/-! ## Failures -/

/-- The ways a wrapper function can fail to complete: the
`std::invalid_argument` it throws itself, a dereference of a null pointer
(undefined behaviour in the source), and `Log::fatal`, after which the process
does not go on. -/
inductive Error where
  | invalid_argument (what : String)
  | null_pointer (what : String)
  | fatal (what : String)
  deriving DecidableEq, Repr

/-! ## Graphics configuration -/

/-- Modelled from the spec: the declaration of `PySTKGraphicsConfig` lives in
`pystk.hpp`, which is not part of the sources.  The field order is the one the
presets are read in (screen_width, screen_height, glow, bloom, light_shaft,
dynamic_lights, dof, particles_effects, animated_characters, motionblur, mlaa,
texture_compression, ssao, degraded_IBL, high_definition_textures), followed by
the `render_window` flag that `initGraphicsConfig` reads.  The two fields that
the presets initialise with numbers are numbers, the others are flags. -/
structure PySTKGraphicsConfig where
  screen_width : Nat
  screen_height : Nat
  glow : Bool
  bloom : Bool
  light_shaft : Bool
  dynamic_lights : Bool
  dof : Bool
  particles_effects : Nat
  animated_characters : Bool
  motionblur : Bool
  mlaa : Bool
  texture_compression : Bool
  ssao : Bool
  degraded_IBL : Bool
  high_definition_textures : Nat
  render_window : Bool
  deriving DecidableEq, Repr

namespace PySTKGraphicsConfig

/-- Source function `PySTKGraphicsConfig::hd()`: the aggregate initialiser, value by value; the
trailing `render_window`, which the initialiser omits, is `false`. -/
def hd : PySTKGraphicsConfig :=
  ⟨600, 400,
   false, true, true, true, true,
   2,
   true,
   true,
   true,
   true,
   true,
   true,
   1 ||| 2,
   false⟩

/-- Source function `PySTKGraphicsConfig::sd()`. -/
def sd : PySTKGraphicsConfig :=
  ⟨600, 400,
   false, false, false, false, false,
   2,
   true,
   true,
   true,
   true,
   true,
   true,
   1 ||| 2,
   false⟩

/-- Source function `PySTKGraphicsConfig::ld()`. -/
def ld : PySTKGraphicsConfig :=
  ⟨600, 400,
   false, false, false, false, false,
   0,
   false,
   false,
   false,
   false,
   false,
   false,
   0,
   false⟩

end PySTKGraphicsConfig

/-- The members of `UserConfigParams` that the wrapper reads or writes.
`m_default_kart_default` is `m_default_kart.getDefaultValue()` and
`m_last_track_default` is `m_last_track.getDefaultValue()`. -/
structure UserConfigParams where
  m_fullscreen : Bool
  m_width : Nat
  m_height : Nat
  m_prev_width : Nat
  m_prev_height : Nat
  m_glow : Bool
  m_bloom : Bool
  m_light_shaft : Bool
  m_dynamic_lights : Bool
  m_dof : Bool
  m_particles_effects : Nat
  m_animated_characters : Bool
  m_motionblur : Bool
  m_mlaa : Bool
  m_texture_compression : Bool
  m_ssao : Bool
  m_degraded_IBL : Bool
  m_high_definition_textures : Nat
  m_default_kart : String
  m_default_kart_default : String
  m_last_track_default : String
  m_difficulty : Int
  m_race_now : Bool
  m_crashed : Bool
  deriving DecidableEq, Repr

/-! ## Race configuration -/

/-- Modelled from the spec: `PySTKRaceConfig::RaceMode` is declared in
`pystk.hpp`, which is not part of the sources.  The seven enumerators are those
`translate_mode` switches on; `other` stands for a value of the enumeration
type that is none of them. -/
inductive RaceMode where
  | NORMAL_RACE
  | TIME_TRIAL
  | FOLLOW_LEADER
  | THREE_STRIKES
  | FREE_FOR_ALL
  | CAPTURE_THE_FLAG
  | SOCCER
  | other (raw : Int)
  deriving DecidableEq, Repr

/-- The values of `RaceManager::MinorRaceModeType` that the wrapper produces. -/
inductive MinorRaceModeType where
  | MINOR_MODE_NORMAL_RACE
  | MINOR_MODE_TIME_TRIAL
  | MINOR_MODE_FOLLOW_LEADER
  | MINOR_MODE_3_STRIKES
  | MINOR_MODE_FREE_FOR_ALL
  | MINOR_MODE_CAPTURE_THE_FLAG
  | MINOR_MODE_SOCCER
  deriving DecidableEq, Repr

/-- Modelled from the spec: `PySTKRaceConfig` (declared in `pystk.hpp`), with
the members the wrapper reads. -/
structure PySTKRaceConfig where
  difficulty : Int
  mode : RaceMode
  kart : String
  track : String
  laps : Int
  step_size : ℚ
  player_ai : Bool
  deriving DecidableEq, Repr

/-- Source function `translate_mode`: the `switch` with its fall-through `return`. -/
def translate_mode (mode : RaceMode) : MinorRaceModeType :=
  match mode with
  | .NORMAL_RACE => .MINOR_MODE_NORMAL_RACE
  | .TIME_TRIAL => .MINOR_MODE_TIME_TRIAL
  | .FOLLOW_LEADER => .MINOR_MODE_FOLLOW_LEADER
  | .THREE_STRIKES => .MINOR_MODE_3_STRIKES
  | .FREE_FOR_ALL => .MINOR_MODE_FREE_FOR_ALL
  | .CAPTURE_THE_FLAG => .MINOR_MODE_CAPTURE_THE_FLAG
  | .SOCCER => .MINOR_MODE_SOCCER
  | .other _ => .MINOR_MODE_NORMAL_RACE

/-! ## Kart controls and actions -/

/-- The enumeration `KartControl::SkidControl`. -/
inductive SkidControl where
  | SC_NONE
  | SC_LEFT
  | SC_RIGHT
  deriving DecidableEq, Repr

/-- Modelled from the spec: `KartControl` is declared in the engine, not in the
sources; it is the control object with the fields accel, brake, fire, nitro,
rescue, steer and skid, each of which its getter returns exactly as its setter
last stored it. -/
structure KartControl where
  accel : ℚ
  brake : Bool
  fire : Bool
  nitro : Bool
  rescue : Bool
  steer : ℚ
  skid : SkidControl
  deriving DecidableEq, Repr

/-- A default-constructed `KartControl`. -/
def KartControl.init : KartControl :=
  ⟨0, false, false, false, false, 0, .SC_NONE⟩

/-- Modelled from the spec: `PySTKAction` (declared in `pystk.hpp`). -/
structure PySTKAction where
  acceleration : ℚ
  brake : Bool
  fire : Bool
  nitro : Bool
  rescue : Bool
  steering_angle : ℚ
  drift : Bool
  deriving DecidableEq, Repr

/-- Source function `PySTKAction::set`: writes the action into the control object. -/
def PySTKAction.set (a : PySTKAction) (_control : KartControl) : KartControl :=
  { accel := a.acceleration
    brake := a.brake
    fire := a.fire
    nitro := a.nitro
    rescue := a.rescue
    steer := a.steering_angle
    skid := if a.drift then
              (if a.steering_angle > 0 then .SC_RIGHT else .SC_LEFT)
            else .SC_NONE }

/-- Source function `PySTKAction::get`: overwrites the action from the control object. -/
def PySTKAction.get (_a : PySTKAction) (control : KartControl) : PySTKAction :=
  { acceleration := control.accel
    brake := control.brake
    fire := control.fire
    nitro := control.nitro
    rescue := control.rescue
    steering_angle := control.steer
    drift := control.skid != .SC_NONE }

/-! ## Process-wide engine state -/

/-- The global engine objects whose creation or release is visible in the
wrapper. -/
inductive Subsystem where
  | file_manager
  | user_config
  | translations
  | stk_config
  | irr_driver
  | stk_time
  | font_manager
  | player_manager
  | history
  | replay_play
  | replay_recorder
  | material_manager
  | track_manager
  | kart_properties_manager
  | projectile_manager
  | powerup_manager
  | attachment_manager
  | highscore_manager
  | race_manager
  | particle_kind_manager
  | referee
  | main_loop
  deriving DecidableEq, Repr

/-- One entry of the log of calls into the engine: the creation of a global
object (`new X`, `X::create()`, `X::init()`), its release (`delete x`,
`X::destroy()`, `X::cleanup()`), or any other call, by name. -/
inductive EngineCall where
  | create (s : Subsystem)
  | release (s : Subsystem)
  | call (name : String)
  deriving DecidableEq, Repr

/-- The race manager's settings, as its setters store them.  The number of
players is the length of `player_karts`. -/
structure RaceManager where
  difficulty : Int
  minor_mode : MinorRaceModeType
  player_karts : List String
  track : String
  num_laps : Int
  deriving DecidableEq, Repr

/-- Source function `RaceManager::setPlayerKart(player, kart)`. -/
def RaceManager.setPlayerKart (rm : RaceManager) (player : Nat) (kart : String) :
    RaceManager :=
  { rm with player_karts := rm.player_karts.set player kart }

/-- Source function `RaceManager::setNumPlayers(n)`: resizes the list of player karts. -/
def RaceManager.setNumPlayers (rm : RaceManager) (n : Nat) : RaceManager :=
  { rm with player_karts :=
      rm.player_karts.take n ++ List.replicate (n - rm.player_karts.length) "" }

/-- Source function `RaceManager::getNumPlayers()`. -/
def RaceManager.getNumPlayers (rm : RaceManager) : Nat := rm.player_karts.length

/-- The active world: the number of single-tick updates it has received and
the control object of player kart 0. -/
structure World where
  ticks : Nat
  controls : KartControl
  deriving DecidableEq, Repr

/-- The process-wide state: the wrapper's two static members, the user
configuration, the set of live (non-null) global engine pointers, the data
behind some of them, and the log of engine calls made so far. -/
structure Globals where
  n_running : Int
  render_window : Bool
  params : UserConfigParams
  live : List Subsystem
  race : RaceManager
  karts : List String
  physics_fps : ℚ
  world : Option World
  num_cameras : Nat
  calls : List EngineCall
  deriving DecidableEq, Repr

namespace Globals

/-- Whether the global pointer to a subsystem is non-null. -/
def isLive (g : Globals) (s : Subsystem) : Bool := decide (s ∈ g.live)

/-- Records calls into the engine. -/
def logAll (g : Globals) (cs : List EngineCall) : Globals :=
  { g with calls := g.calls ++ cs }

/-- Records a call into the engine. -/
def call (g : Globals) (name : String) : Globals :=
  { g with calls := g.calls ++ [.call name] }

/-- The statement `x = new X()` (or `X::create()`): the pointer becomes non-null. -/
def create (g : Globals) (s : Subsystem) : Globals :=
  { g with live := if s ∈ g.live then g.live else g.live ++ [s]
           calls := g.calls ++ [.create s] }

/-- An unconditional release (`X::destroy()`): the pointer becomes null. -/
def destroy (g : Globals) (s : Subsystem) : Globals :=
  { g with live := g.live.filter (fun x => x != s)
           calls := g.calls ++ [.release s] }

/-- The idiom `if(x) delete x; x = nullptr;`. -/
def deleteIfSet (g : Globals) (s : Subsystem) : Globals :=
  if g.isLive s then g.destroy s else g

/-- A call of a setter of the race manager. -/
def setRace (g : Globals) (f : RaceManager → RaceManager) : Globals :=
  { g with race := f g.race }

/-- The kart properties manager (re)loads its list of karts. -/
def setKarts (g : Globals) (karts : List String) : Globals :=
  { g with karts := karts }

/-- An assignment to members of `UserConfigParams`. -/
def setParams (g : Globals) (f : UserConfigParams → UserConfigParams) : Globals :=
  { g with params := f g.params }

/-- An assignment to the static member `n_running`. -/
def setRunning (g : Globals) (n : Int) : Globals :=
  { g with n_running := n }

/-- An assignment to the static member `render_window`. -/
def setRenderWindow (g : Globals) (b : Bool) : Globals :=
  { g with render_window := b }

/-- The tick rate that `stk_config->load` reads. -/
def setFps (g : Globals) (f : ℚ) : Globals :=
  { g with physics_fps := f }

/-- The engine replaces, changes or removes the active world. -/
def setWorld (g : Globals) (w : Option World) : Globals :=
  { g with world := w }

/-- The engine sets up the cameras of a race. -/
def setCameras (g : Globals) (n : Nat) : Globals :=
  { g with num_cameras := n }

/-- Whether `kart_properties_manager->getKart(id)` is non-null. -/
def knowsKart (g : Globals) (id : String) : Bool := decide (id ∈ g.karts)

end Globals

/-! ## Render targets and render data -/

/-- The engine's render textures of one target: their size (`getWidth()`,
`getHeight()`, unsigned) and the pixel rows that a read-back of the colour,
depth and label attachments delivers. -/
structure RTT where
  width : Nat
  height : Nat
  color : List Nat
  depth : List ℚ
  label : List Nat
  deriving DecidableEq, Repr

/-- The engine's `RenderTarget`; `getRTTs()` may be null. -/
structure RenderTarget where
  rtts : Option RTT
  deriving DecidableEq, Repr

/-- The class `PySTKRenderTarget`: owns one engine render target. -/
structure PySTKRenderTarget where
  rt_ : RenderTarget
  deriving DecidableEq, Repr

/-- Modelled from the spec: `PySTKRenderData` (declared in `pystk.hpp`): the
size and the colour, depth and instance-label buffers of one viewport. -/
structure PySTKRenderData where
  width : Nat
  height : Nat
  color_buf_ : List Nat
  depth_buf_ : List ℚ
  instance_buf_ : List Nat
  deriving DecidableEq, Repr

/-- A freshly made `PySTKRenderData`. -/
def PySTKRenderData.init : PySTKRenderData := ⟨0, 0, [], [], []⟩

/-- The call `std::vector::resize(n)`: truncates, or pads with value-initialised
elements. -/
def resize {α : Type} (fill : α) (v : List α) (n : Nat) : List α :=
  v.take n ++ List.replicate (n - v.length) fill

/-- The call of `glReadPixels` into `buf.data()`: the first `n` elements of the buffer are
overwritten with what the attachment delivers; the buffer keeps its size. -/
def glReadPixels {α : Type} (fill : α) (src : List α) (n : Nat) (buf : List α) :
    List α :=
  (((List.range n).map fun i => src.getD i fill) ++ buf.drop n).take buf.length

/-- Modelled from the spec: `yflip(data, H, rowlen)` is defined in `util.hpp`,
which is not part of the sources; every fetched buffer is vertically flipped
in place: row `r` of the first `H` rows of `rowlen` elements changes place
with row `H - 1 - r`. -/
def yflip {α : Type} (fill : α) (buf : List α) (H rowlen : Nat) : List α :=
  (List.range buf.length).map fun i =>
    if i < H * rowlen then buf.getD ((H - 1 - i / rowlen) * rowlen + i % rowlen) fill
    else buf.getD i fill

/-- Arithmetic on `unsigned int`. -/
def u32 (n : Nat) : Nat := n % 2 ^ 32

/-- Source function `PySTKRenderTarget::fetch`: when both the render textures and the data
object exist, sizes the three buffers, reads the attachments back and flips
them; otherwise does nothing. -/
def PySTKRenderTarget.fetch (t : PySTKRenderTarget) (data : Option PySTKRenderData) :
    Option PySTKRenderData :=
  match t.rt_.rtts, data with
  | some rtts, some d =>
    let W := rtts.width
    let H := rtts.height
    let color := resize 0 d.color_buf_ (u32 (W * H * 3))
    let depth := resize 0 d.depth_buf_ (u32 (W * H))
    let inst := resize 0 d.instance_buf_ (u32 (W * H))
    let color := glReadPixels 0 rtts.color (W * H * 3) color
    let depth := glReadPixels 0 rtts.depth (W * H) depth
    let inst := glReadPixels 0 rtts.label (W * H) inst
    some { width := W
           height := H
           color_buf_ := yflip 0 color H (u32 (W * 3))
           depth_buf_ := yflip 0 depth H W
           instance_buf_ := yflip 0 inst H W }
  | _, d => d

/-! ## The session object and the engine's answers -/

/-- The members of a `PySuperTuxKart` session object.  The entries of
`render_data_` are shared pointers that only `render` makes, with
`make_shared`, so none of them is null. -/
structure PySuperTuxKart where
  config_ : PySTKRaceConfig
  time_leftover_ : ℚ
  ai_controller_ : Bool
  ai_action_ : PySTKAction
  render_targets_ : List PySTKRenderTarget
  render_data_ : List PySTKRenderData
  deriving DecidableEq, Repr

/-- What the engine hands back to the wrapper during one call: the contents of
the configuration files, the objects it creates, what rendering through camera
`i` for the time `dt` makes of a render target, and the values its queries
return. -/
structure Engine where
  saved_params : UserConfigParams
  physics_fps : ℚ
  karts : List String
  device_at_construction : Bool
  materials_file_found : Bool
  new_render_target : Nat → Nat → RenderTarget
  renderToTexture : Nat → ℚ → RenderTarget → RenderTarget
  new_race_cameras : Nat
  is_glsl : Bool
  device_run : Bool
  finished_players : Nat
  ai_control : KartControl

/-- The whole state: the process-wide part and the session object. -/
structure Sys where
  g : Globals
  s : PySuperTuxKart
  deriving DecidableEq, Repr

/-- The outcome of a static function: the value returned or the failure, and
the process-wide state the call leaves behind. -/
structure GOutcome where
  ret : Except Error Unit
  g : Globals

/-- The outcome of a member function of the session. -/
structure Outcome (α : Type) where
  ret : Except Error α
  sys : Sys

/-! ## Single-precision arithmetic -/

/-- The position of the leading binary digit of `n`, for at most `fuel`
digits. -/
def bitsAux : Nat → Nat → Nat
  | 0, _ => 0
  | fuel + 1, n => if 2 ≤ n then bitsAux fuel (n / 2) + 1 else 0

/-- The position of the leading binary digit of `n`: `2 ^ ilog2 n ≤ n` and
`n < 2 ^ (ilog2 n + 1)` for `n > 0`. -/
def ilog2 (n : Nat) : Nat := bitsAux n n

/-- The binary exponent of the positive fraction `p / q`: the `e` with
`2 ^ e ≤ p / q < 2 ^ (e + 1)`. -/
def exponent (p q : Nat) : Int :=
  let e0 : Int := (ilog2 p : Int) - (ilog2 q : Int)
  if q * 2 ^ ilog2 p ≤ p * 2 ^ ilog2 q then e0 else e0 - 1

/-- The integer nearest to `a / b`, the even one of two equally near. -/
def roundHalfEven (a b : Nat) : Nat :=
  let d := a / b
  let r := a % b
  if 2 * r < b then d else if b < 2 * r then d + 1 else if d % 2 = 0 then d else d + 1

/-- The result of an arithmetic operation on `float`: the exact result `x`
rounded to the nearest binary32 value, ties to even.  A binary32 value has a
significand of 24 binary digits and an exponent of at least `-126`, below
which the spacing stays `2 ^ (-149)`.  Results beyond the largest finite
binary32 value, where the source gets an infinity, are rounded to 24 digits
all the same. -/
def round32 (x : ℚ) : ℚ :=
  if x = 0 then 0 else
    let p := x.num.natAbs
    let q := x.den
    let e := max (exponent p q) (-126)
    let s : Int := 23 - e
    let m := roundHalfEven (p * 2 ^ s.toNat) (q * 2 ^ (-s).toNat)
    (if x.num < 0 then -1 else 1) * ((m : ℚ) * 2 ^ (-s).toNat / 2 ^ s.toNat)

/-- Modelled from the spec: `STKConfig::time2Ticks` is not part of the
sources; it is the whole number of ticks in `t` at the tick rate `f`. -/
def time2Ticks (f t : ℚ) : Int := ⌊t * f⌋

/-- Modelled from the spec: `STKConfig::ticks2Time` is not part of the
sources; `n` ticks last `n / f`. -/
def ticks2Time (f : ℚ) (n : Int) : ℚ := (n : ℚ) / f

/-! ## Bring-up and tear-down of the engine -/

open Subsystem in
/-- Source function `PySuperTuxKart::initUserConfig`. -/
def initUserConfig (E : Engine) (g : Globals) : Globals :=
  let g := g.create file_manager
  let g := g.create user_config
  let g := (g.call "user_config->loadConfig").setParams fun _ => E.saved_params
  let g := g.call "file_manager->init"
  let g := g.create translations
  g.create stk_config

/-- Source function `PySuperTuxKart::initGraphicsConfig`. -/
def initGraphicsConfig (config : PySTKGraphicsConfig) (g : Globals) : Globals :=
  let g := g.setParams fun p =>
    { p with
      m_fullscreen := false
      m_prev_width := config.screen_width
      m_width := config.screen_width
      m_prev_height := config.screen_height
      m_height := config.screen_height
      m_glow := config.glow
      m_bloom := config.bloom
      m_light_shaft := config.light_shaft
      m_dynamic_lights := config.dynamic_lights
      m_dof := config.dof
      m_particles_effects := config.particles_effects
      m_animated_characters := config.animated_characters
      m_motionblur := config.motionblur
      m_mlaa := config.mlaa
      m_texture_compression := config.texture_compression
      m_ssao := config.ssao
      m_degraded_IBL := config.degraded_IBL
      m_high_definition_textures := config.high_definition_textures }
  g.setRenderWindow config.render_window

open Subsystem in
/-- The statements of `initRest` after the display device has been found. -/
def initManagers (E : Engine) (g : Globals) : Globals :=
  let g := g.create stk_time
  let g := g.call "irr_driver->initDevice"
  let g := g.create font_manager
  let g := g.call "font_manager->loadFonts"
  let g := g.create player_manager
  let g := g.call "PlayerManager::enforceCurrentPlayer"
  let g := g.create history
  let g := g.create replay_play
  let g := g.create replay_recorder
  let g := g.create material_manager
  let g := g.create track_manager
  let g := (g.create kart_properties_manager).setKarts []
  let g := g.create projectile_manager
  let g := g.create powerup_manager
  let g := g.create attachment_manager
  let g := g.create highscore_manager
  let g := g.call "irr_driver->setMaxTextureSize"
  let g := g.call "KartPropertiesManager::addKartSearchDir"
  let g := g.call "track_manager->addTrackSearchDir"
  let g := g.call "kart_properties_manager->loadCharacteristics"
  let g := g.call "track_manager->loadTrackList"
  let g := (g.create race_manager).setRace fun _ => ⟨0, .MINOR_MODE_NORMAL_RACE, [], "", 0⟩
  let g := g.setRace fun rm => rm.setNumPlayers 1
  let g := g.setRace fun rm => { rm with num_laps := 3 }
  let g := g.setRace fun rm => { rm with minor_mode := .MINOR_MODE_NORMAL_RACE }
  let g := g.setRace fun rm => { rm with difficulty := g.params.m_difficulty }
  let g := g.setRace fun rm => { rm with track := g.params.m_last_track_default }
  (g.call "kart_properties_manager->loadAllKarts").setKarts E.karts

open Subsystem in
/-- Source function `PySuperTuxKart::initRest`.  When the driver comes without
a device, `Log::fatal` ends the bring-up. -/
def initRest (E : Engine) (g : Globals) : GOutcome :=
  let g := g.call "SP::setMaxTextureSize"
  let g := g.create irr_driver
  if !E.device_at_construction then
    ⟨.error (.fatal "Couldn't initialise irrlicht device. Quitting."), g.call "Log::fatal"⟩
  else ⟨.ok (), initManagers E g⟩

open Subsystem in
/-- Source function `PySuperTuxKart::load`.  `ParticleKindManager::get()` is
an accessor: the source does not show it creating anything. -/
def load (E : Engine) (g : Globals) : Globals :=
  let g := g.call "material_manager->loadMaterial"
  let g := g.call "ParticleKindManager::get()->getParticles"
  let g := (g.call "kart_properties_manager->loadAllKarts").setKarts E.karts
  let g := g.call "PlayerManager::get()->initRemainingData"
  let g := g.call "projectile_manager->loadData"
  let g := g.call "file_manager->pushTextureSearchPath"
  let g := if E.materials_file_found then g.call "material_manager->addSharedMaterial" else g
  let g := g.create referee
  let g := g.call "powerup_manager->loadPowerupsModels"
  let g := g.call "ItemManager::loadDefaultItemMeshes"
  let g := g.call "attachment_manager->loadModels"
  g.call "file_manager->popTextureSearchPath"

/-- Source function `PySuperTuxKart::init`. -/
def init (E : Engine) (config : PySTKGraphicsConfig) (g : Globals) : GOutcome :=
  if g.n_running > 0 then
    ⟨.error (.invalid_argument "Cannot init while supertuxkart is running!"), g⟩
  else
    let g := initUserConfig E g
    let g := (g.call "stk_config->load").setFps E.physics_fps
    let g := initGraphicsConfig config g
    match initRest E g with
    | ⟨.error e, g⟩ => ⟨.error e, g⟩
    | ⟨.ok (), g⟩ => ⟨.ok (), load E g⟩

open Subsystem in
/-- Source function `PySuperTuxKart::cleanUserConfig`. -/
def cleanUserConfig (g : Globals) : Globals :=
  let g := g.deleteIfSet stk_config
  let g := g.deleteIfSet translations
  let g :=
    if g.isLive user_config then
      let g := g.setParams fun p => { p with m_crashed := false }
      let g := g.call "user_config->saveConfig"
      g.destroy user_config
    else g
  g.deleteIfSet irr_driver

open Subsystem in
/-- Source function `PySuperTuxKart::cleanSuperTuxKart`; its first statement dereferences
`irr_driver`. -/
def cleanSuperTuxKart (g : Globals) : GOutcome :=
  if !g.isLive irr_driver then ⟨.error (.null_pointer "irr_driver"), g⟩
  else
    let g := g.call "irr_driver->updateConfigIfRelevant"
    let g := g.deleteIfSet race_manager
    let g := g.deleteIfSet highscore_manager
    let g := g.deleteIfSet attachment_manager
    let g := g.call "ItemManager::removeTextures"
    let g := g.deleteIfSet powerup_manager
    let g := g.deleteIfSet projectile_manager
    let g := g.deleteIfSet kart_properties_manager
    let g := g.deleteIfSet track_manager
    let g := g.deleteIfSet material_manager
    let g := g.deleteIfSet history
    let g := g.destroy replay_play
    let g := g.destroy replay_recorder
    let g := g.destroy particle_kind_manager
    let g := g.destroy player_manager
    let g := g.deleteIfSet font_manager
    let g := g.destroy stk_time
    ⟨.ok (), cleanUserConfig g⟩

open Subsystem in
/-- The part of `PySuperTuxKart::clean` that follows `cleanSuperTuxKart()`,
as compiled where neither `WIN32` nor `ANDROID` is defined. -/
def cleanRest (g : Globals) : Globals :=
  let g := g.call "Log::flushBuffers"
  let g :=
    if g.isLive user_config then
      ((g.call "Log::closeOutputFiles").call "fclose(stderr)").call "fclose(stdout)"
    else g
  g.deleteIfSet file_manager

/-- Source function `PySuperTuxKart::clean`. -/
def clean (g : Globals) : GOutcome :=
  if g.n_running > 0 then
    ⟨.error (.invalid_argument "Cannot clean up while supertuxkart is running!"), g⟩
  else
    match cleanSuperTuxKart g with
    | ⟨.error e, g⟩ => ⟨.error e, g⟩
    | ⟨.ok (), g⟩ => ⟨.ok (), cleanRest g⟩

/-! ## Race set-up -/

/-- The kart selection of `setupConfig`, entered when a kart identifier is
given: a known kart becomes the default kart and the kart of player 0, an
unknown one is logged and ignored. -/
def selectKart (kart : String) (g : Globals) : Globals :=
  if g.knowsKart kart then
    let g := g.setParams fun p => { p with m_default_kart := kart }
    let g := g.setRace fun rm => rm.setPlayerKart 0 kart
    g.call "Log::verbose"
  else
    g.call "Log::warn"

/-- The statements of `setupConfig` after the kart selection. -/
def setupTrackAndLaps (config : PySTKRaceConfig) (g : Globals) : Globals :=
  let g :=
    if config.track.length != 0 then g.setRace fun rm => { rm with track := config.track }
    else g
  let g := g.setParams fun p => { p with m_race_now := true }
  g.setRace fun rm => { rm with num_laps := config.laps }

open Subsystem in
/-- Source function `PySuperTuxKart::setupConfig`. -/
def setupConfig (config : PySTKRaceConfig) (sys : Sys) : Outcome Unit :=
  let s := { sys.s with config_ := config }
  if !sys.g.isLive race_manager then ⟨.error (.null_pointer "race_manager"), ⟨sys.g, s⟩⟩
  else
    let g := sys.g.setRace fun rm => { rm with difficulty := config.difficulty }
    let g := g.setRace fun rm => { rm with minor_mode := translate_mode config.mode }
    if config.kart.length != 0 then
      if !g.isLive kart_properties_manager then
        ⟨.error (.null_pointer "kart_properties_manager"), ⟨g, s⟩⟩
      else ⟨.ok (), ⟨setupTrackAndLaps config (selectKart config.kart g), s⟩⟩
    else ⟨.ok (), ⟨setupTrackAndLaps config g, s⟩⟩

open Subsystem in
/-- Source function `PySuperTuxKart::setupRaceStart`. -/
def setupRaceStart (g : Globals) : GOutcome :=
  if !g.isLive kart_properties_manager then
    ⟨.error (.null_pointer "kart_properties_manager"), g⟩
  else if !g.knowsKart g.params.m_default_kart then
    let g := g.call "Log::warn"
    if !g.isLive race_manager then ⟨.error (.null_pointer "race_manager"), g⟩
    else ⟨.ok (), g.setRace fun rm => rm.setPlayerKart 0 g.params.m_default_kart_default⟩
  else if !g.isLive race_manager then ⟨.error (.null_pointer "race_manager"), g⟩
  else if g.race.getNumPlayers > 0 then
    ⟨.ok (), g.setRace fun rm => rm.setPlayerKart 0 g.params.m_default_kart⟩
  else ⟨.ok (), g⟩

/-! ## The session's life cycle -/

/-- The members of a session object before the constructor body runs: the
containers are empty, the other members hold no value yet (read as zero);
`config_` is what `setupConfig` assigns first thing. -/
def PySuperTuxKart.blank (config : PySTKRaceConfig) : PySuperTuxKart :=
  { config_ := config
    time_leftover_ := 0
    ai_controller_ := false
    ai_action_ := ⟨0, false, false, false, false, 0, false⟩
    render_targets_ := []
    render_data_ := [] }

open Subsystem in
/-- The statements of the constructor after `setupConfig(config)`. -/
def constructRest (E : Engine) (sys : Sys) : Except Error PySuperTuxKart × Globals :=
  let g := sys.g.create main_loop
  if !g.isLive irr_driver then (.error (.null_pointer "irr_driver"), g)
  else
    let rt := E.new_render_target g.params.m_width g.params.m_height
    (.ok { sys.s with render_targets_ := sys.s.render_targets_ ++ [⟨rt⟩] },
     g.call "irr_driver->createRenderTarget")

/-- Source function `PySuperTuxKart::PySuperTuxKart`: the constructor.  On failure no session
object comes into being; the process-wide state is as the failure left it. -/
def construct (E : Engine) (config : PySTKRaceConfig) (g : Globals) :
    Except Error PySuperTuxKart × Globals :=
  if g.n_running > 0 then
    (.error (.invalid_argument "Cannot run more than one supertux instance per process!"), g)
  else
    let g := g.setRunning (g.n_running + 1)
    let g := g.call "resetObjectId"
    match setupConfig config ⟨g, PySuperTuxKart.blank config⟩ with
    | ⟨.error e, sys⟩ => (.error e, sys.g)
    | ⟨.ok (), sys⟩ => constructRest E sys

open Subsystem in
/-- Source function `PySuperTuxKart::~PySuperTuxKart`: the destructor. -/
def destruct (sys : Sys) : Globals :=
  let g := sys.g.deleteIfSet main_loop
  let g := g.destroy referee
  g.setRunning (g.n_running - 1)

open Subsystem in
/-- Source function `PySuperTuxKart::start`. -/
def start (E : Engine) (sys : Sys) : Outcome Unit :=
  match setupRaceStart sys.g with
  | ⟨.error e, g⟩ => ⟨.error e, ⟨g, sys.s⟩⟩
  | ⟨.ok (), g⟩ =>
    let g := g.call "race_manager->setupPlayerKartInfo"
    let g := ((g.call "race_manager->startNew").setWorld (some ⟨0, KartControl.init⟩)).setCameras
      E.new_race_cameras
    let s := { sys.s with time_leftover_ := 0 }
    if s.config_.player_ai then
      ⟨.ok (), ⟨g.call "World::loadAIController", { s with ai_controller_ := true }⟩⟩
    else ⟨.ok (), ⟨g, s⟩⟩

open Subsystem in
/-- Source function `PySuperTuxKart::stop`. -/
def stop (E : Engine) (sys : Sys) : Outcome Unit :=
  let s := { sys.s with render_targets_ := [] }
  if E.is_glsl && !sys.g.isLive irr_driver then
    ⟨.error (.null_pointer "irr_driver"), ⟨sys.g, s⟩⟩
  else
    let g :=
      if E.is_glsl then
        (sys.g.call "SPTextureManager::checkForGLCommand").call "glViewport"
      else sys.g
    if g.world.isSome && !g.isLive race_manager then
      ⟨.error (.null_pointer "race_manager"), ⟨g, s⟩⟩
    else
      let g :=
        if g.world.isSome then (g.call "race_manager->exitRace").setWorld none
        else g
      ⟨.ok (), ⟨g, { s with ai_controller_ := false }⟩⟩

/-! ## Rendering and stepping -/

/-- The first loop of `render`: target `i` is rendered through camera `i` for
every `i` below both the number of cameras and the number of targets. -/
def renderViews (E : Engine) (dt : ℚ) (num_cameras : Nat)
    (targets : List PySTKRenderTarget) : List PySTKRenderTarget :=
  targets.enum.map fun (i, t) =>
    if i < num_cameras then ⟨E.renderToTexture i dt t.rt_⟩ else t

/-- The engine calls of the first loop of `render`. -/
def renderViewsCalls (num_cameras num_targets : Nat) : List EngineCall :=
  (List.replicate (min num_cameras num_targets)
    [EngineCall.call "Camera::activate", EngineCall.call "RenderTarget::renderToTexture"]).flatten

/-- The last loop of `render`: `render_targets_[i]->fetch(render_data_[i])` for
every target; data objects beyond the targets are left alone. -/
def fetchAll : List PySTKRenderTarget → List PySTKRenderData → List PySTKRenderData
  | [], ds => ds
  | _ :: _, [] => []
  | t :: ts, d :: ds => (t.fetch (some d)).getD d :: fetchAll ts ds

/-- The `while` loop of `render`: fresh data objects are appended until there
is one for every target. -/
def growRenderData (num_targets : Nat) (data : List PySTKRenderData) :
    List PySTKRenderData :=
  data ++ List.replicate (num_targets - data.length) PySTKRenderData.init

/-- Source function `PySuperTuxKart::render`. -/
def render (E : Engine) (dt : ℚ) (sys : Sys) : Sys :=
  let g := sys.g.call "SPTextureManager::checkForGLCommand"
  if g.world.isSome then
    let targets := renderViews E dt g.num_cameras sys.s.render_targets_
    let data := growRenderData targets.length sys.s.render_data_
    ⟨g.logAll (renderViewsCalls g.num_cameras sys.s.render_targets_.length),
     { sys.s with render_targets_ := targets, render_data_ := fetchAll targets data }⟩
  else ⟨g, sys.s⟩

/-- One `World::getWorld()->updateWorld(1)`. -/
def updateWorld1 (g : Globals) : Globals :=
  (g.call "World::updateWorld(1)").setWorld
    (g.world.map fun w => { w with ticks := w.ticks + 1 })

/-- The loop `for(int i=0; i<ticks; i++) World::getWorld()->updateWorld(1);`. -/
def updateWorldLoop : Nat → Globals → Globals
  | 0, g => g
  | n + 1, g => updateWorld1 (updateWorldLoop n g)

/-- The update of the AI control in `step`, entered when an AI controller is
bound: the controller computes into a fresh control object, which is copied
into `ai_action_`. -/
def updateAI (E : Engine) (sys : Sys) : Sys :=
  let control := E.ai_control
  let g := sys.g.call "AIController::setControls"
  let g := g.call "AIController::update"
  let g := g.call "AIController::setControls"
  ⟨g, { sys.s with ai_action_ := sys.s.ai_action_.get control }⟩

/-- The block `if (World::getWorld()) { ... }` of `step`, entered with an
active world and a tick rate to read: the step size goes into the leftover
time, the whole ticks in it are taken out and run one at a time.  The member
`time_leftover_` and the step size are `float`, so `time_leftover_ += dt` and
`time_leftover_ -= ticks2Time(ticks)` each round their result to binary32. -/
def advanceWorld (E : Engine) (dt : ℚ) (sys : Sys) : Sys :=
  let time_leftover := round32 (sys.s.time_leftover_ + dt)
  let ticks := time2Ticks sys.g.physics_fps time_leftover
  let time_leftover := round32 (time_leftover - ticks2Time sys.g.physics_fps ticks)
  let s := { sys.s with time_leftover_ := time_leftover }
  let g := updateWorldLoop ticks.toNat sys.g
  if s.ai_controller_ then updateAI E ⟨g, s⟩ else ⟨g, s⟩

open Subsystem in
/-- The last two statements of `step`: the device is polled, and unless it
stops the race goes on while a race manager exists and fewer players have
finished than there are. -/
def pollAndReport (E : Engine) (sys : Sys) : Outcome Bool :=
  let g := sys.g.call "IrrlichtDevice::run"
  if !E.device_run then ⟨.ok false, ⟨g, sys.s⟩⟩
  else
    ⟨.ok (g.isLive race_manager && decide (E.finished_players < g.race.getNumPlayers)),
     ⟨g, sys.s⟩⟩

open Subsystem in
/-- Source function `PySuperTuxKart::step()`. -/
def step (E : Engine) (sys : Sys) : Outcome Bool :=
  let dt := sys.s.config_.step_size
  let g := sys.g.call "PropertyAnimator::update"
  let g := if g.world.isSome then g.call "World::updateGraphics" else g
  if !g.isLive irr_driver then ⟨.error (.null_pointer "irr_driver"), ⟨g, sys.s⟩⟩
  else
    let g := if g.render_window then g.call "irr_driver->update"
             else g.call "irr_driver->minimalUpdate"
    let sys := render E dt ⟨g, sys.s⟩
    if sys.g.world.isSome then
      if !sys.g.isLive stk_config then ⟨.error (.null_pointer "stk_config"), sys⟩
      else pollAndReport E (advanceWorld E dt sys)
    else pollAndReport E sys

/-- Source function `PySuperTuxKart::step(const PySTKAction &)`; its first statement
dereferences `World::getWorld()`. -/
def stepAction (E : Engine) (a : PySTKAction) (sys : Sys) : Outcome Bool :=
  match sys.g.world with
  | none => ⟨.error (.null_pointer "World::getWorld()"), sys⟩
  | some w => step E ⟨sys.g.setWorld (some { w with controls := a.set w.controls }), sys.s⟩

/-- Calling `step()` `n` times in a row, call `k` receiving the engine's
answers `E k`; the returned flags are left to the caller. -/
def steps (E : Nat → Engine) : Nat → Sys → Outcome Unit
  | 0, sys => ⟨.ok (), sys⟩
  | n + 1, sys =>
    match steps E n sys with
    | ⟨.error e, sys⟩ => ⟨.error e, sys⟩
    | ⟨.ok (), sys⟩ =>
      match step (E n) sys with
      | ⟨.error e, sys⟩ => ⟨.error e, sys⟩
      | ⟨.ok _, sys⟩ => ⟨.ok (), sys⟩

/-! ## Sample states and the vocabulary of the theorems -/

open Subsystem

/-- A user configuration as the engine ships it. -/
def sampleParams : UserConfigParams :=
  { m_fullscreen := false, m_width := 1024, m_height := 768
    m_prev_width := 1024, m_prev_height := 768
    m_glow := false, m_bloom := false, m_light_shaft := false
    m_dynamic_lights := false, m_dof := false, m_particles_effects := 0
    m_animated_characters := false, m_motionblur := false, m_mlaa := false
    m_texture_compression := false, m_ssao := false, m_degraded_IBL := false
    m_high_definition_textures := 0
    m_default_kart := "tux", m_default_kart_default := "tux"
    m_last_track_default := "olivermath", m_difficulty := 0
    m_race_now := false, m_crashed := false }

/-- The process right after it starts: every static pointer is null, no
session runs, nothing has been called. -/
def Globals.boot : Globals :=
  { n_running := 0, render_window := false, params := sampleParams, live := []
    race := ⟨0, .MINOR_MODE_NORMAL_RACE, [], "", 0⟩, karts := [], physics_fps := 0
    world := none, num_cameras := 0, calls := [] }

/-- Render textures of 4 by 2 pixels. -/
def sampleRTT : RTT := ⟨4, 2, List.range 24, List.replicate 8 1, List.range 8⟩

/-- An engine with two karts and 120 physics ticks per second, whose render
targets are 4 by 2 pixels, whose device keeps running and in whose race nobody
has finished. -/
def sampleEngine : Engine :=
  { saved_params := sampleParams
    physics_fps := 120
    karts := ["tux", "gnu"]
    device_at_construction := true
    materials_file_found := true
    new_render_target := fun _ _ => ⟨some sampleRTT⟩
    renderToTexture := fun _ _ rt => rt
    new_race_cameras := 1
    is_glsl := true
    device_run := true
    finished_players := 0
    ai_control := KartControl.init }

/-- A race configuration: three laps of a known track in a known kart, eight
steps per second. -/
def sampleRace : PySTKRaceConfig :=
  { difficulty := 2, mode := .NORMAL_RACE, kart := "gnu", track := "lighthouse"
    laps := 3, step_size := 1 / 8, player_ai := false }

/-- The process after `init` with the high-detail preset. -/
def sampleInitialised : Globals := (init sampleEngine PySTKGraphicsConfig.hd Globals.boot).g

/-- An engine state like the initialised one in which a race manager with one
player on kart `tux` is set up. -/
def sampleReady : Globals :=
  sampleInitialised.setRace fun rm => rm.setPlayerKart 0 "tux"

/-- A race configuration that names a kart the engine does not know. -/
def sampleUnknownKart : PySTKRaceConfig :=
  { sampleRace with kart := "no-such-kart", difficulty := 1, mode := .TIME_TRIAL, laps := 5 }

/-- A session on the initialised engine. -/
def sampleSession : Sys :=
  match construct sampleEngine sampleRace sampleInitialised with
  | (.ok s, g) => ⟨g, s⟩
  | (.error _, g) => ⟨g, PySuperTuxKart.blank sampleRace⟩

/-- The session after `start()`. -/
def sampleRunning : Sys := (start sampleEngine sampleSession).sys

/-- The session in a process whose race manager is gone while the display
driver is still there. -/
def sampleNoRaceManager : Sys := ⟨sampleSession.g.destroy race_manager, sampleSession.s⟩

/-- An action to submit. -/
def sampleAction : PySTKAction :=
  { acceleration := 1, brake := false, fire := false, nitro := false, rescue := false
    steering_angle := 0, drift := false }

/-- The render data has the size of a `W` by `H` viewport: the recorded width
and height, three colour bytes, one depth value and one label per pixel. -/
def PySTKRenderData.sized (d : PySTKRenderData) (W H : Nat) : Prop :=
  d.width = W ∧ d.height = H ∧ d.color_buf_.length = W * H * 3 ∧
  d.depth_buf_.length = W * H ∧ d.instance_buf_.length = W * H

instance (d : PySTKRenderData) (W H : Nat) : Decidable (d.sized W H) := by
  unfold PySTKRenderData.sized
  infer_instance

/-- The subsystems a log creates, in the order of their creation. -/
def created (calls : List EngineCall) : List Subsystem :=
  calls.filterMap fun c => match c with
    | .create s => some s
    | _ => none

/-- The subsystems a log releases, in the order of their release. -/
def released (calls : List EngineCall) : List Subsystem :=
  calls.filterMap fun c => match c with
    | .release s => some s
    | _ => none

/-- Both subsystems occur in the list, the first one earlier. -/
def precedes (l : List Subsystem) (a b : Subsystem) : Bool :=
  decide (a ∈ l) && decide (b ∈ l) && decide (l.indexOf a < l.indexOf b)

/-- The log of `init` followed by `clean` in a process that has just started. -/
def bringUpTearDown (E : Engine) (config : PySTKGraphicsConfig) : List EngineCall :=
  (clean (init E config Globals.boot).g).g.calls

/-- The pairs created in this order and released in the same order. -/
def keptOrder : List (Subsystem × Subsystem) :=
  [(history, replay_play), (history, replay_recorder), (replay_play, replay_recorder),
   (user_config, irr_driver), (translations, irr_driver), (stk_config, irr_driver)]

/-- Whether the race mode is one of the seven enumerators. -/
def RaceMode.named : RaceMode → Bool
  | .other _ => false
  | _ => true

/-- The seven enumerators of the race mode. -/
def RaceMode.enumerators : List RaceMode :=
  [.NORMAL_RACE, .TIME_TRIAL, .FOLLOW_LEADER, .THREE_STRIKES, .FREE_FOR_ALL,
   .CAPTURE_THE_FLAG, .SOCCER]

/-- An action that drifts while steering to the right. -/
def sampleDriftRight : PySTKAction :=
  { acceleration := 1, brake := false, fire := true, nitro := false, rescue := false
    steering_angle := 1, drift := true }

/-- An action that drifts while steering to the left. -/
def sampleDriftLeft : PySTKAction :=
  { sampleDriftRight with steering_angle := -1 }

/-- The leftover time after `n` steps of size `dt` at the tick rate `f` when
nothing is rounded: the time `n * dt` less the whole ticks in it. -/
def exactLeftover (f dt : ℚ) (n : ℕ) : ℚ :=
  n * dt - ticks2Time f (time2Ticks f (n * dt))

/-- None of the additions and subtractions on the leftover time rounds during
the first `N` steps: every sum `time_leftover_ + dt` and every difference
`time_leftover_ - ticks2Time(ticks)` is a binary32 value already. -/
def noRounding (f dt : ℚ) (N : ℕ) : Prop :=
  ∀ n, n < N →
    round32 (exactLeftover f dt n + dt) = exactLeftover f dt n + dt ∧
    round32 (exactLeftover f dt (n + 1)) = exactLeftover f dt (n + 1)

instance (f dt : ℚ) (N : ℕ) : Decidable (noRounding f dt N) := by
  unfold noRounding
  infer_instance

/-- The sample session at 64 ticks per second with steps of one and a half
ticks. -/
def sampleDyadic : Sys :=
  ⟨sampleSession.g.setFps 64,
   { sampleSession.s with config_ := { sampleRace with step_size := 3 / 128 } }⟩

/-- The sample session, at 120 ticks per second, with steps of 3/16 s, that is
of twenty-two and a half ticks. -/
def sampleCoarse : Sys :=
  ⟨sampleSession.g, { sampleSession.s with config_ := { sampleRace with step_size := 3 / 16 } }⟩

/-! ## Theorems -/

/-! ### The basic operations, field by field -/

@[simp] theorem Globals.logAll_fields (g : Globals) (cs : List EngineCall) :
    (g.logAll cs).n_running = g.n_running ∧
    (g.logAll cs).render_window = g.render_window ∧
    (g.logAll cs).params = g.params ∧
    (g.logAll cs).live = g.live ∧
    (g.logAll cs).race = g.race ∧
    (g.logAll cs).karts = g.karts ∧
    (g.logAll cs).physics_fps = g.physics_fps ∧
    (g.logAll cs).world = g.world ∧
    (g.logAll cs).num_cameras = g.num_cameras ∧
    (g.logAll cs).calls = g.calls ++ cs :=
  ⟨rfl, rfl, rfl, rfl, rfl, rfl, rfl, rfl, rfl, rfl⟩

@[simp] theorem Globals.isLive_logAll (g : Globals) (cs : List EngineCall) (s : Subsystem) :
    (g.logAll cs).isLive s = g.isLive s := rfl

@[simp] theorem Globals.call_fields (g : Globals) (name : String) :
    (g.call name).n_running = g.n_running ∧
    (g.call name).render_window = g.render_window ∧
    (g.call name).params = g.params ∧
    (g.call name).live = g.live ∧
    (g.call name).race = g.race ∧
    (g.call name).karts = g.karts ∧
    (g.call name).physics_fps = g.physics_fps ∧
    (g.call name).world = g.world ∧
    (g.call name).num_cameras = g.num_cameras ∧
    (g.call name).calls = g.calls ++ [.call name] :=
  ⟨rfl, rfl, rfl, rfl, rfl, rfl, rfl, rfl, rfl, rfl⟩

@[simp] theorem Globals.isLive_call (g : Globals) (name : String) (s : Subsystem) :
    (g.call name).isLive s = g.isLive s := rfl

@[simp] theorem Globals.setRace_fields (g : Globals) (f : RaceManager → RaceManager) :
    (g.setRace f).n_running = g.n_running ∧
    (g.setRace f).render_window = g.render_window ∧
    (g.setRace f).params = g.params ∧
    (g.setRace f).live = g.live ∧
    (g.setRace f).race = f g.race ∧
    (g.setRace f).karts = g.karts ∧
    (g.setRace f).physics_fps = g.physics_fps ∧
    (g.setRace f).world = g.world ∧
    (g.setRace f).num_cameras = g.num_cameras ∧
    (g.setRace f).calls = g.calls :=
  ⟨rfl, rfl, rfl, rfl, rfl, rfl, rfl, rfl, rfl, rfl⟩

@[simp] theorem Globals.isLive_setRace (g : Globals) (f : RaceManager → RaceManager) (s : Subsystem) :
    (g.setRace f).isLive s = g.isLive s := rfl

@[simp] theorem Globals.setKarts_fields (g : Globals) (karts : List String) :
    (g.setKarts karts).n_running = g.n_running ∧
    (g.setKarts karts).render_window = g.render_window ∧
    (g.setKarts karts).params = g.params ∧
    (g.setKarts karts).live = g.live ∧
    (g.setKarts karts).race = g.race ∧
    (g.setKarts karts).karts = karts ∧
    (g.setKarts karts).physics_fps = g.physics_fps ∧
    (g.setKarts karts).world = g.world ∧
    (g.setKarts karts).num_cameras = g.num_cameras ∧
    (g.setKarts karts).calls = g.calls :=
  ⟨rfl, rfl, rfl, rfl, rfl, rfl, rfl, rfl, rfl, rfl⟩

@[simp] theorem Globals.isLive_setKarts (g : Globals) (karts : List String) (s : Subsystem) :
    (g.setKarts karts).isLive s = g.isLive s := rfl

@[simp] theorem Globals.setParams_fields (g : Globals) (f : UserConfigParams → UserConfigParams) :
    (g.setParams f).n_running = g.n_running ∧
    (g.setParams f).render_window = g.render_window ∧
    (g.setParams f).params = f g.params ∧
    (g.setParams f).live = g.live ∧
    (g.setParams f).race = g.race ∧
    (g.setParams f).karts = g.karts ∧
    (g.setParams f).physics_fps = g.physics_fps ∧
    (g.setParams f).world = g.world ∧
    (g.setParams f).num_cameras = g.num_cameras ∧
    (g.setParams f).calls = g.calls :=
  ⟨rfl, rfl, rfl, rfl, rfl, rfl, rfl, rfl, rfl, rfl⟩

@[simp] theorem Globals.isLive_setParams (g : Globals) (f : UserConfigParams → UserConfigParams) (s : Subsystem) :
    (g.setParams f).isLive s = g.isLive s := rfl

@[simp] theorem Globals.setRunning_fields (g : Globals) (n : Int) :
    (g.setRunning n).n_running = n ∧
    (g.setRunning n).render_window = g.render_window ∧
    (g.setRunning n).params = g.params ∧
    (g.setRunning n).live = g.live ∧
    (g.setRunning n).race = g.race ∧
    (g.setRunning n).karts = g.karts ∧
    (g.setRunning n).physics_fps = g.physics_fps ∧
    (g.setRunning n).world = g.world ∧
    (g.setRunning n).num_cameras = g.num_cameras ∧
    (g.setRunning n).calls = g.calls :=
  ⟨rfl, rfl, rfl, rfl, rfl, rfl, rfl, rfl, rfl, rfl⟩

@[simp] theorem Globals.isLive_setRunning (g : Globals) (n : Int) (s : Subsystem) :
    (g.setRunning n).isLive s = g.isLive s := rfl

@[simp] theorem Globals.setRenderWindow_fields (g : Globals) (b : Bool) :
    (g.setRenderWindow b).n_running = g.n_running ∧
    (g.setRenderWindow b).render_window = b ∧
    (g.setRenderWindow b).params = g.params ∧
    (g.setRenderWindow b).live = g.live ∧
    (g.setRenderWindow b).race = g.race ∧
    (g.setRenderWindow b).karts = g.karts ∧
    (g.setRenderWindow b).physics_fps = g.physics_fps ∧
    (g.setRenderWindow b).world = g.world ∧
    (g.setRenderWindow b).num_cameras = g.num_cameras ∧
    (g.setRenderWindow b).calls = g.calls :=
  ⟨rfl, rfl, rfl, rfl, rfl, rfl, rfl, rfl, rfl, rfl⟩

@[simp] theorem Globals.isLive_setRenderWindow (g : Globals) (b : Bool) (s : Subsystem) :
    (g.setRenderWindow b).isLive s = g.isLive s := rfl

@[simp] theorem Globals.setFps_fields (g : Globals) (f : ℚ) :
    (g.setFps f).n_running = g.n_running ∧
    (g.setFps f).render_window = g.render_window ∧
    (g.setFps f).params = g.params ∧
    (g.setFps f).live = g.live ∧
    (g.setFps f).race = g.race ∧
    (g.setFps f).karts = g.karts ∧
    (g.setFps f).physics_fps = f ∧
    (g.setFps f).world = g.world ∧
    (g.setFps f).num_cameras = g.num_cameras ∧
    (g.setFps f).calls = g.calls :=
  ⟨rfl, rfl, rfl, rfl, rfl, rfl, rfl, rfl, rfl, rfl⟩

@[simp] theorem Globals.isLive_setFps (g : Globals) (f : ℚ) (s : Subsystem) :
    (g.setFps f).isLive s = g.isLive s := rfl

@[simp] theorem Globals.setWorld_fields (g : Globals) (w : Option World) :
    (g.setWorld w).n_running = g.n_running ∧
    (g.setWorld w).render_window = g.render_window ∧
    (g.setWorld w).params = g.params ∧
    (g.setWorld w).live = g.live ∧
    (g.setWorld w).race = g.race ∧
    (g.setWorld w).karts = g.karts ∧
    (g.setWorld w).physics_fps = g.physics_fps ∧
    (g.setWorld w).world = w ∧
    (g.setWorld w).num_cameras = g.num_cameras ∧
    (g.setWorld w).calls = g.calls :=
  ⟨rfl, rfl, rfl, rfl, rfl, rfl, rfl, rfl, rfl, rfl⟩

@[simp] theorem Globals.isLive_setWorld (g : Globals) (w : Option World) (s : Subsystem) :
    (g.setWorld w).isLive s = g.isLive s := rfl

@[simp] theorem Globals.setCameras_fields (g : Globals) (n : Nat) :
    (g.setCameras n).n_running = g.n_running ∧
    (g.setCameras n).render_window = g.render_window ∧
    (g.setCameras n).params = g.params ∧
    (g.setCameras n).live = g.live ∧
    (g.setCameras n).race = g.race ∧
    (g.setCameras n).karts = g.karts ∧
    (g.setCameras n).physics_fps = g.physics_fps ∧
    (g.setCameras n).world = g.world ∧
    (g.setCameras n).num_cameras = n ∧
    (g.setCameras n).calls = g.calls :=
  ⟨rfl, rfl, rfl, rfl, rfl, rfl, rfl, rfl, rfl, rfl⟩

@[simp] theorem Globals.isLive_setCameras (g : Globals) (n : Nat) (s : Subsystem) :
    (g.setCameras n).isLive s = g.isLive s := rfl

@[simp] theorem Globals.create_fields (g : Globals) (c : Subsystem) :
    (g.create c).n_running = g.n_running ∧
    (g.create c).render_window = g.render_window ∧
    (g.create c).params = g.params ∧
    (g.create c).race = g.race ∧
    (g.create c).karts = g.karts ∧
    (g.create c).physics_fps = g.physics_fps ∧
    (g.create c).world = g.world ∧
    (g.create c).num_cameras = g.num_cameras ∧
    (g.create c).calls = g.calls ++ [.create c] :=
  ⟨rfl, rfl, rfl, rfl, rfl, rfl, rfl, rfl, rfl⟩

@[simp] theorem Globals.destroy_fields (g : Globals) (c : Subsystem) :
    (g.destroy c).n_running = g.n_running ∧
    (g.destroy c).render_window = g.render_window ∧
    (g.destroy c).params = g.params ∧
    (g.destroy c).race = g.race ∧
    (g.destroy c).karts = g.karts ∧
    (g.destroy c).physics_fps = g.physics_fps ∧
    (g.destroy c).world = g.world ∧
    (g.destroy c).num_cameras = g.num_cameras ∧
    (g.destroy c).calls = g.calls ++ [.release c] :=
  ⟨rfl, rfl, rfl, rfl, rfl, rfl, rfl, rfl, rfl⟩

theorem Globals.isLive_create (g : Globals) (c s : Subsystem) :
    (g.create c).isLive s = (decide (s = c) || g.isLive s) := by
  by_cases h : c ∈ g.live
  · by_cases hs : s = c
    · subst hs
      simp [Globals.isLive, Globals.create, h]
    · simp [Globals.isLive, Globals.create, h, hs]
  · simp [Globals.isLive, Globals.create, h, or_comm]

theorem Globals.isLive_destroy (g : Globals) (c s : Subsystem) :
    (g.destroy c).isLive s = (g.isLive s && !decide (s = c)) := by
  by_cases hs : s = c <;> simp [Globals.isLive, Globals.destroy, hs]

/-! ### Race set-up leaves the engine objects and the session counter alone -/

theorem selectKart_frame (kart : String) (g : Globals) :
    (selectKart kart g).live = g.live ∧ (selectKart kart g).n_running = g.n_running := by
  unfold selectKart
  split_ifs <;> simp

theorem setupTrackAndLaps_frame (config : PySTKRaceConfig) (g : Globals) :
    (setupTrackAndLaps config g).live = g.live ∧
    (setupTrackAndLaps config g).n_running = g.n_running := by
  unfold setupTrackAndLaps
  split_ifs <;> simp

theorem setupConfig_frame (config : PySTKRaceConfig) (sys : Sys) :
    (setupConfig config sys).sys.g.live = sys.g.live ∧
    (setupConfig config sys).sys.g.n_running = sys.g.n_running := by
  unfold setupConfig
  dsimp only
  split_ifs <;> simp [selectKart_frame, setupTrackAndLaps_frame]

theorem setupConfig_ok (config : PySTKRaceConfig) (sys : Sys)
    (hrm : sys.g.isLive race_manager = true)
    (hkm : config.kart.length ≠ 0 → sys.g.isLive kart_properties_manager = true) :
    (setupConfig config sys).ret = .ok () ∧
    (setupConfig config sys).sys.s = { sys.s with config_ := config } := by
  unfold setupConfig
  by_cases hk : config.kart.length = 0
  · simp [hrm, hk]
  · simp [hrm, hk, hkm hk]

theorem setupConfig_not_invalid_argument (config : PySTKRaceConfig) (sys : Sys)
    (what : String) : (setupConfig config sys).ret ≠ .error (.invalid_argument what) := by
  unfold setupConfig
  dsimp only
  split_ifs <;> simp

theorem constructRest_frame (E : Engine) (sys : Sys) :
    (∀ what, (constructRest E sys).1 ≠ .error (.invalid_argument what)) ∧
    (constructRest E sys).2.n_running = sys.g.n_running := by
  unfold constructRest
  dsimp only
  split_ifs <;> simp

/-- C1: the constructor fails with `std::invalid_argument` and changes nothing
whenever a session is already counted, for every state; when none is counted it
does not fail on the guard, the counter becomes 1, and, the engine objects it
dereferences being there, the session it builds owns exactly one render
target. -/
theorem construct_single_session (E : Engine) (config : PySTKRaceConfig) (g : Globals) :
    (0 < g.n_running →
      construct E config g =
        (.error (.invalid_argument "Cannot run more than one supertux instance per process!"),
         g)) ∧
    (g.n_running = 0 →
      (∀ what, (construct E config g).1 ≠ .error (.invalid_argument what)) ∧
      (construct E config g).2.n_running = 1 ∧
      (g.isLive race_manager = true →
        (config.kart.length ≠ 0 → g.isLive kart_properties_manager = true) →
        g.isLive irr_driver = true →
        ∃ s, (construct E config g).1 = .ok s ∧ s.render_targets_.length = 1)) := by
  refine ⟨fun h => by simp [construct, h], fun h0 => ?_⟩
  have hc : construct E config g =
      match setupConfig config
        ⟨(g.setRunning (g.n_running + 1)).call "resetObjectId", PySuperTuxKart.blank config⟩ with
      | ⟨.error e, sys⟩ => (.error e, sys.g)
      | ⟨.ok (), sys⟩ => constructRest E sys := by
    simp [construct, h0]
  rw [hc]
  generalize hsys :
    (⟨(g.setRunning (g.n_running + 1)).call "resetObjectId", PySuperTuxKart.blank config⟩ : Sys)
      = sys0
  have hn : sys0.g.n_running = 1 := by subst hsys; simp [h0]
  have hl : sys0.g.live = g.live := by subst hsys; simp
  have hs0 : sys0.s = PySuperTuxKart.blank config := by subst hsys; rfl
  have hf := setupConfig_frame config sys0
  have hni := setupConfig_not_invalid_argument config sys0
  refine ⟨?_, ?_, ?_⟩
  · intro what
    rcases hout : setupConfig config sys0 with ⟨ret, sys1⟩
    rw [hout] at hni
    rcases ret with e | u
    · simpa using hni what
    · simpa using (constructRest_frame E sys1).1 what
  · rcases hout : setupConfig config sys0 with ⟨ret, sys1⟩
    rw [hout] at hf
    rcases ret with e | u
    · simpa [hn] using hf.2
    · simpa [(constructRest_frame E sys1).2, hn] using hf.2
  · intro hrm hkm hirr
    have hlive : ∀ x, sys0.g.isLive x = g.isLive x := fun x => by simp [Globals.isLive, hl]
    have hok := setupConfig_ok config sys0 (by rw [hlive]; exact hrm)
      (fun hk => by rw [hlive]; exact hkm hk)
    rcases hout : setupConfig config sys0 with ⟨ret, sys1⟩
    rw [hout] at hf hok
    obtain ⟨hret, hs1⟩ := hok
    simp only at hret hs1 hf
    subst hret
    have hirr1 : (sys1.g.create main_loop).isLive irr_driver = true := by
      rw [Globals.isLive_create]
      simp [Globals.isLive, hf.1, hl] at hirr ⊢
      exact hirr
    simp [constructRest, hirr1, hs1, hs0, PySuperTuxKart.blank]

/-- Witness of C1: with a session counted the constructor is refused and the
state is untouched; on the freshly initialised engine it builds a session with
one render target. -/
theorem construct_single_session_witness :
    construct sampleEngine sampleRace (sampleInitialised.setRunning 1) =
      (.error (.invalid_argument "Cannot run more than one supertux instance per process!"),
       sampleInitialised.setRunning 1) ∧
    ∃ s, (construct sampleEngine sampleRace sampleInitialised).1 = .ok s ∧
      s.render_targets_.length = 1 :=
  ⟨(construct_single_session sampleEngine sampleRace (sampleInitialised.setRunning 1)).1
      (by decide),
   ((construct_single_session sampleEngine sampleRace sampleInitialised).2 (by decide)).2.2
      (by decide) (fun _ => by decide) (by decide)⟩

/-! ### The guards of `init` and `clean` -/

theorem cleanSuperTuxKart_not_invalid_argument (g : Globals) (what : String) :
    (cleanSuperTuxKart g).ret ≠ .error (.invalid_argument what) := by
  unfold cleanSuperTuxKart
  split_ifs <;> simp

/-- C5: `init` and `clean` each throw `std::invalid_argument` exactly when a
session is counted (`n_running > 0`), and when they throw the process-wide
state is what it was. -/
theorem init_clean_guard (E : Engine) (config : PySTKGraphicsConfig) (g : Globals) :
    ((∃ what, (init E config g).ret = .error (.invalid_argument what)) ↔ 0 < g.n_running) ∧
    ((∃ what, (clean g).ret = .error (.invalid_argument what)) ↔ 0 < g.n_running) ∧
    (0 < g.n_running → (init E config g).g = g ∧ (clean g).g = g) := by
  refine ⟨⟨?_, fun h => ⟨"Cannot init while supertuxkart is running!", by simp [init, h]⟩⟩,
    ⟨?_, fun h => ⟨"Cannot clean up while supertuxkart is running!", by simp [clean, h]⟩⟩,
    fun h => by simp [init, clean, h]⟩
  · rintro ⟨what, hw⟩
    by_contra h
    simp only [init, gt_iff_lt, h, if_false, initRest] at hw
    split_ifs at hw
    simp at hw
  · rintro ⟨what, hw⟩
    by_contra h
    have hni := cleanSuperTuxKart_not_invalid_argument g
    simp only [clean, gt_iff_lt, h, if_false] at hw
    rcases hout : cleanSuperTuxKart g with ⟨ret, g1⟩
    rw [hout] at hw hni
    rcases ret with e | u
    · simp only [Except.error.injEq] at hw
      exact hni what (by simp [hw])
    · simp at hw

/-- Witness of C5: with one session counted on the initialised engine, `init`
and `clean` leave the state as it is. -/
theorem init_clean_guard_witness :
    (init sampleEngine PySTKGraphicsConfig.hd (sampleInitialised.setRunning 1)).g =
      sampleInitialised.setRunning 1 ∧
    (clean (sampleInitialised.setRunning 1)).g = sampleInitialised.setRunning 1 :=
  (init_clean_guard sampleEngine PySTKGraphicsConfig.hd (sampleInitialised.setRunning 1)).2.2
    (by decide)

/-! ### The graphics presets -/

/-- C6, as claimed, fails: the high-detail and the standard-detail preset do
not differ in `particles_effects`, `glow` or `motionblur`. -/
theorem hd_sd_claimed_differences_fail :
    ¬ (PySTKGraphicsConfig.hd.screen_width = PySTKGraphicsConfig.sd.screen_width ∧
       PySTKGraphicsConfig.hd.screen_height = PySTKGraphicsConfig.sd.screen_height ∧
       PySTKGraphicsConfig.hd.mlaa = PySTKGraphicsConfig.sd.mlaa ∧
       PySTKGraphicsConfig.hd.ssao = PySTKGraphicsConfig.sd.ssao ∧
       PySTKGraphicsConfig.hd.degraded_IBL = PySTKGraphicsConfig.sd.degraded_IBL ∧
       PySTKGraphicsConfig.hd.high_definition_textures =
         PySTKGraphicsConfig.sd.high_definition_textures ∧
       PySTKGraphicsConfig.hd.particles_effects ≠ PySTKGraphicsConfig.sd.particles_effects ∧
       PySTKGraphicsConfig.hd.glow ≠ PySTKGraphicsConfig.sd.glow ∧
       PySTKGraphicsConfig.hd.bloom ≠ PySTKGraphicsConfig.sd.bloom ∧
       PySTKGraphicsConfig.hd.light_shaft ≠ PySTKGraphicsConfig.sd.light_shaft ∧
       PySTKGraphicsConfig.hd.dynamic_lights ≠ PySTKGraphicsConfig.sd.dynamic_lights ∧
       PySTKGraphicsConfig.hd.dof ≠ PySTKGraphicsConfig.sd.dof ∧
       PySTKGraphicsConfig.hd.motionblur ≠ PySTKGraphicsConfig.sd.motionblur) := by
  decide

/-- C6, amended: the high-detail and the standard-detail preset agree on
`screen_width`, `screen_height`, `glow`, `particles_effects`,
`animated_characters`, `motionblur`, `mlaa`, `texture_compression`, `ssao`,
`degraded_IBL` and `high_definition_textures`, and differ in each of `bloom`,
`light_shaft`, `dynamic_lights` and `dof`. -/
theorem hd_sd_compared :
    PySTKGraphicsConfig.hd.screen_width = PySTKGraphicsConfig.sd.screen_width ∧
    PySTKGraphicsConfig.hd.screen_height = PySTKGraphicsConfig.sd.screen_height ∧
    PySTKGraphicsConfig.hd.glow = PySTKGraphicsConfig.sd.glow ∧
    PySTKGraphicsConfig.hd.particles_effects = PySTKGraphicsConfig.sd.particles_effects ∧
    PySTKGraphicsConfig.hd.animated_characters = PySTKGraphicsConfig.sd.animated_characters ∧
    PySTKGraphicsConfig.hd.motionblur = PySTKGraphicsConfig.sd.motionblur ∧
    PySTKGraphicsConfig.hd.mlaa = PySTKGraphicsConfig.sd.mlaa ∧
    PySTKGraphicsConfig.hd.texture_compression = PySTKGraphicsConfig.sd.texture_compression ∧
    PySTKGraphicsConfig.hd.ssao = PySTKGraphicsConfig.sd.ssao ∧
    PySTKGraphicsConfig.hd.degraded_IBL = PySTKGraphicsConfig.sd.degraded_IBL ∧
    PySTKGraphicsConfig.hd.high_definition_textures =
      PySTKGraphicsConfig.sd.high_definition_textures ∧
    PySTKGraphicsConfig.hd.bloom ≠ PySTKGraphicsConfig.sd.bloom ∧
    PySTKGraphicsConfig.hd.light_shaft ≠ PySTKGraphicsConfig.sd.light_shaft ∧
    PySTKGraphicsConfig.hd.dynamic_lights ≠ PySTKGraphicsConfig.sd.dynamic_lights ∧
    PySTKGraphicsConfig.hd.dof ≠ PySTKGraphicsConfig.sd.dof := by
  decide

/-! ### An unknown kart identifier -/

/-- C8: when the configuration names a kart that the kart manager does not
know, `setupConfig` completes, the default kart identifier and the karts
selected for the players are what they were, a warning is logged, and
difficulty, mode, track (if one is given), lap count and the race-now flag are
set from the configuration. -/
theorem setupConfig_unknown_kart (config : PySTKRaceConfig) (sys : Sys)
    (hrm : sys.g.isLive race_manager = true)
    (hkm : sys.g.isLive kart_properties_manager = true)
    (hk : config.kart.length ≠ 0)
    (hu : sys.g.knowsKart config.kart = false) :
    (setupConfig config sys).ret = .ok () ∧
    (setupConfig config sys).sys.g.params.m_default_kart = sys.g.params.m_default_kart ∧
    (setupConfig config sys).sys.g.race.player_karts = sys.g.race.player_karts ∧
    (setupConfig config sys).sys.g.calls = sys.g.calls ++ [.call "Log::warn"] ∧
    (setupConfig config sys).sys.g.race.difficulty = config.difficulty ∧
    (setupConfig config sys).sys.g.race.minor_mode = translate_mode config.mode ∧
    (setupConfig config sys).sys.g.race.track =
      (if config.track.length ≠ 0 then config.track else sys.g.race.track) ∧
    (setupConfig config sys).sys.g.race.num_laps = config.laps ∧
    (setupConfig config sys).sys.g.params.m_race_now = true := by
  have hu2 : ∀ f g, (((sys.g.setRace f).setRace g).knowsKart config.kart) = false := by
    intro f g
    simpa [Globals.knowsKart] using hu
  by_cases ht : config.track.length = 0 <;>
    simp [setupConfig, setupTrackAndLaps, selectKart, hrm, hkm, hk, hu2, ht]

/-- Witness of C8: on the initialised engine, whose karts are `tux` and `gnu`,
a configuration naming `no-such-kart` is accepted and changes no kart. -/
theorem setupConfig_unknown_kart_witness :
    (setupConfig sampleUnknownKart ⟨sampleReady, PySuperTuxKart.blank sampleUnknownKart⟩).ret
      = .ok () ∧
    (setupConfig sampleUnknownKart
      ⟨sampleReady, PySuperTuxKart.blank sampleUnknownKart⟩).sys.g.race.player_karts = ["tux"] :=
  have h := setupConfig_unknown_kart sampleUnknownKart
    ⟨sampleReady, PySuperTuxKart.blank sampleUnknownKart⟩
    (by decide) (by decide) (by decide) (by decide)
  ⟨h.1, h.2.2.1.trans (by decide)⟩

/-! ### What `render` and the world update leave alone -/

theorem render_frame (E : Engine) (dt : ℚ) (sys : Sys) :
    (render E dt sys).g.live = sys.g.live ∧
    (render E dt sys).g.race = sys.g.race ∧
    (render E dt sys).g.world = sys.g.world ∧
    (render E dt sys).g.physics_fps = sys.g.physics_fps ∧
    (render E dt sys).s.config_ = sys.s.config_ ∧
    (render E dt sys).s.time_leftover_ = sys.s.time_leftover_ ∧
    (render E dt sys).s.ai_controller_ = sys.s.ai_controller_ ∧
    (render E dt sys).s.ai_action_ = sys.s.ai_action_ := by
  unfold render
  dsimp only
  split_ifs <;> simp

theorem updateWorldLoop_frame (n : Nat) (g : Globals) :
    (updateWorldLoop n g).live = g.live ∧
    (updateWorldLoop n g).race = g.race ∧
    (updateWorldLoop n g).physics_fps = g.physics_fps ∧
    (updateWorldLoop n g).world = g.world.map fun w => { w with ticks := w.ticks + n } := by
  induction n with
  | zero => cases h : g.world <;> simp [updateWorldLoop, h]
  | succ n ih =>
    obtain ⟨h1, h2, h3, h4⟩ := ih
    refine ⟨?_, ?_, ?_, ?_⟩ <;> simp only [updateWorldLoop, updateWorld1] <;> simp [*]
    cases g.world <;> simp [Nat.add_assoc]

theorem advanceWorld_frame (E : Engine) (dt : ℚ) (sys : Sys) :
    (advanceWorld E dt sys).g.live = sys.g.live ∧
    (advanceWorld E dt sys).g.race = sys.g.race ∧
    (advanceWorld E dt sys).g.physics_fps = sys.g.physics_fps ∧
    (advanceWorld E dt sys).s.config_ = sys.s.config_ := by
  unfold advanceWorld
  dsimp only
  split_ifs <;> simp [updateAI, updateWorldLoop_frame]

theorem render_isLive (E : Engine) (dt : ℚ) (sys : Sys) (x : Subsystem) :
    (render E dt sys).g.isLive x = sys.g.isLive x := by
  simp [Globals.isLive, (render_frame E dt sys).1]

theorem advanceWorld_isLive (E : Engine) (dt : ℚ) (sys : Sys) (x : Subsystem) :
    (advanceWorld E dt sys).g.isLive x = sys.g.isLive x := by
  simp [Globals.isLive, (advanceWorld_frame E dt sys).1]

theorem pollAndReport_ret (E : Engine) (sys : Sys) :
    (pollAndReport E sys).ret =
      .ok (E.device_run &&
        (sys.g.isLive race_manager && decide (E.finished_players < sys.g.race.getNumPlayers))) := by
  unfold pollAndReport
  cases E.device_run <;> simp

/-- What `step()` returns when the engine objects it dereferences exist: the
device's answer, and with it that a race manager exists and fewer players have
finished than there are. -/
theorem step_ret (E : Engine) (sys : Sys)
    (hirr : sys.g.isLive irr_driver = true)
    (hstk : sys.g.world.isSome = true → sys.g.isLive stk_config = true) :
    (step E sys).ret =
      .ok (E.device_run &&
        (sys.g.isLive race_manager && decide (E.finished_players < sys.g.race.getNumPlayers))) := by
  cases hw : sys.g.world with
  | none =>
    cases hrw : sys.g.render_window <;>
      simp [step, hw, hrw, hirr, pollAndReport_ret, render_isLive, (render_frame _ _ _).2.1,
        (render_frame _ _ _).2.2.1]
  | some w =>
    have hstk := hstk (by simp [hw])
    cases hrw : sys.g.render_window <;>
      simp [step, hw, hrw, hirr, hstk, pollAndReport_ret, render_isLive, advanceWorld_isLive,
        (render_frame _ _ _).2.1, (render_frame _ _ _).2.2.1, (advanceWorld_frame _ _ _).2.1]

/-! ### The value `step()` returns -/

/-- C3, as claimed, fails: with the device reporting that it keeps running and
no race manager, `step()` returns false. -/
theorem step_false_without_race_manager :
    sampleEngine.device_run = true ∧
    sampleNoRaceManager.g.isLive race_manager = false ∧
    (step sampleEngine sampleNoRaceManager).ret = .ok false := by
  refine ⟨rfl, by decide, ?_⟩
  rw [step_ret sampleEngine sampleNoRaceManager (by decide) (by decide)]
  exact congrArg Except.ok (by decide)

/-- C3, amended: when the device reports that it keeps running, `step()`
returns, and it returns true exactly when a race manager exists and fewer
players have finished than there are; so it returns false when no race manager
exists. -/
theorem step_continues_iff (E : Engine) (sys : Sys)
    (hirr : sys.g.isLive irr_driver = true)
    (hstk : sys.g.world.isSome = true → sys.g.isLive stk_config = true)
    (hrun : E.device_run = true) :
    ∃ b, (step E sys).ret = .ok b ∧
      (b = true ↔
        (sys.g.isLive race_manager = true ∧ E.finished_players < sys.g.race.getNumPlayers)) ∧
      (sys.g.isLive race_manager = false → b = false) := by
  refine ⟨_, step_ret E sys hirr hstk, ?_, ?_⟩
  · simp [hrun]
  · intro h
    simp [h]

/-- Witness of C3, amended: the running sample session, nobody having finished,
goes on. -/
theorem step_continues_iff_witness :
    (step sampleEngine sampleRunning).ret = .ok true := by
  obtain ⟨b, hb, hiff, _⟩ :=
    step_continues_iff sampleEngine sampleRunning (by decide) (fun _ => by decide) rfl
  rw [hb, hiff.mpr ⟨by decide, by decide⟩]

/-- C4: `step()` returns false whenever the device reports that it should
stop, whatever the player counts are, and whenever as many players have
finished as there are, whatever the device reports. -/
theorem step_stops (E : Engine) (sys : Sys)
    (hirr : sys.g.isLive irr_driver = true)
    (hstk : sys.g.world.isSome = true → sys.g.isLive stk_config = true) :
    (E.device_run = false → (step E sys).ret = .ok false) ∧
    (sys.g.race.getNumPlayers ≤ E.finished_players → (step E sys).ret = .ok false) := by
  rw [step_ret E sys hirr hstk]
  refine ⟨fun h => by simp [h], fun h => ?_⟩
  have : ¬ E.finished_players < sys.g.race.getNumPlayers := Nat.not_lt.mpr h
  simp [this]

/-- Witness of C4: the running sample session stops when the device stops, and
when its one player has finished. -/
theorem step_stops_witness :
    (step { sampleEngine with device_run := false } sampleRunning).ret = .ok false ∧
    (step { sampleEngine with finished_players := 1 } sampleRunning).ret = .ok false :=
  ⟨(step_stops { sampleEngine with device_run := false } sampleRunning (by decide)
      (fun _ => by decide)).1 rfl,
   (step_stops { sampleEngine with finished_players := 1 } sampleRunning (by decide)
      (fun _ => by decide)).2 (by decide)⟩

/-! ### Without an active world -/

/-- Without a world `render(dt)` leaves the session object as it is and runs no
world tick. -/
theorem render_without_world (E : Engine) (dt : ℚ) (sys : Sys) (hw : sys.g.world = none) :
    (render E dt sys).s = sys.s ∧ (render E dt sys).g.world = none ∧
    (render E dt sys).g.calls = sys.g.calls ++ [.call "SPTextureManager::checkForGLCommand"] := by
  simp [render, hw]

/-- Without a world, and with the display driver there, `step()` returns,
leaves the session object as it is and runs no world tick. -/
theorem step_without_world (E : Engine) (sys : Sys) (hw : sys.g.world = none)
    (hirr : sys.g.isLive irr_driver = true) :
    (∃ b, (step E sys).ret = .ok b) ∧ (step E sys).sys.s = sys.s ∧
    (step E sys).sys.g.world = none ∧
    EngineCall.call "World::updateWorld(1)" ∉ (step E sys).sys.g.calls.drop sys.g.calls.length := by
  refine ⟨⟨_, step_ret E sys hirr (by simp [hw])⟩, ?_⟩
  cases hrw : sys.g.render_window <;> cases hd : E.device_run <;>
    simp [step, render, pollAndReport, hw, hrw, hirr, hd]

/-- C10 fails on `step(Action)`: in a session whose race has not been started
no world is active, and `step(Action)` dereferences the null world pointer
where `step()` and `render(dt)` test it. -/
theorem stepAction_without_world_fails :
    sampleSession.g.world = none ∧
    sampleSession.g.isLive irr_driver = true ∧
    (stepAction sampleEngine sampleAction sampleSession).ret =
      .error (.null_pointer "World::getWorld()") ∧
    (step sampleEngine sampleSession).ret = .ok true ∧
    (step sampleEngine sampleSession).sys.s = sampleSession.s := by
  refine ⟨by decide, by decide, by rfl, ?_, ?_⟩
  · rw [step_ret sampleEngine sampleSession (by decide) (by decide)]
    exact congrArg Except.ok (by decide)
  · exact (step_without_world sampleEngine sampleSession (by decide) (by decide)).2.1

/-! ### Tick accounting -/

/-- The ticks taken out of the leftover time in the step after `n` whole steps:
the leftover being `n * dt` less the ticks already run, the step runs the ticks
of `(n + 1) * dt` that have not been run yet. -/
theorem time2Ticks_step (f dt : ℚ) (n : ℕ) (hf : 0 < f) :
    time2Ticks f ((n : ℚ) * dt - ticks2Time f (time2Ticks f (n * dt)) + dt) =
      time2Ticks f ((n + 1 : ℕ) * dt) - time2Ticks f (n * dt) := by
  have hf0 : f ≠ 0 := ne_of_gt hf
  have key : ∀ a : ℤ, ((n : ℚ) * dt - (a : ℚ) / f + dt) * f = ((n + 1 : ℕ) : ℚ) * dt * f - a := by
    intro a
    push_cast
    field_simp
    ring
  unfold time2Ticks ticks2Time
  rw [key, Int.floor_sub_int]

theorem time2Ticks_nonneg (f t : ℚ) (hf : 0 < f) (ht : 0 ≤ t) : 0 ≤ time2Ticks f t :=
  Int.floor_nonneg.mpr (mul_nonneg ht hf.le)

theorem time2Ticks_mono (f dt : ℚ) (n : ℕ) (hf : 0 < f) (hdt : 0 ≤ dt) :
    time2Ticks f (n * dt) ≤ time2Ticks f ((n + 1 : ℕ) * dt) := by
  unfold time2Ticks
  apply Int.floor_mono
  push_cast
  nlinarith [mul_nonneg hdt hf.le]

theorem advanceWorld_effect (E : Engine) (dt : ℚ) (sys : Sys) :
    (advanceWorld E dt sys).g.world =
      sys.g.world.map (fun w => { w with ticks := w.ticks +
        (time2Ticks sys.g.physics_fps (round32 (sys.s.time_leftover_ + dt))).toNat }) ∧
    (advanceWorld E dt sys).s.time_leftover_ =
      round32 (round32 (sys.s.time_leftover_ + dt) -
        ticks2Time sys.g.physics_fps
          (time2Ticks sys.g.physics_fps (round32 (sys.s.time_leftover_ + dt)))) := by
  unfold advanceWorld
  dsimp only
  split_ifs <;> simp [updateAI, updateWorldLoop_frame]

theorem pollAndReport_sys (E : Engine) (sys : Sys) :
    (pollAndReport E sys).sys = ⟨sys.g.call "IrrlichtDevice::run", sys.s⟩ := by
  unfold pollAndReport
  cases E.device_run <;> simp

/-- One `step()` with a world active: it returns, and the leftover time and the
world's tick count change as the tick accounting says. -/
theorem step_with_world (E : Engine) (sys : Sys) (w : World)
    (hw : sys.g.world = some w)
    (hirr : sys.g.isLive irr_driver = true)
    (hstk : sys.g.isLive stk_config = true) :
    (∃ b, (step E sys).ret = .ok b) ∧
    (step E sys).sys.g.live = sys.g.live ∧
    (step E sys).sys.g.physics_fps = sys.g.physics_fps ∧
    (step E sys).sys.s.config_ = sys.s.config_ ∧
    (step E sys).sys.g.world =
      some { w with ticks := w.ticks +
        (time2Ticks sys.g.physics_fps
          (round32 (sys.s.time_leftover_ + sys.s.config_.step_size))).toNat } ∧
    (step E sys).sys.s.time_leftover_ =
      round32 (round32 (sys.s.time_leftover_ + sys.s.config_.step_size) -
        ticks2Time sys.g.physics_fps
          (time2Ticks sys.g.physics_fps
            (round32 (sys.s.time_leftover_ + sys.s.config_.step_size)))) := by
  refine ⟨⟨_, step_ret E sys hirr (fun _ => hstk)⟩, ?_⟩
  cases hrw : sys.g.render_window <;>
    simp [step, hw, hrw, hirr, hstk, pollAndReport_sys, render_isLive, render_frame,
      advanceWorld_frame, advanceWorld_effect]

/-- After `n` calls of `step()` from a state with a world active and no
leftover time, none of whose additions and subtractions rounds, the world has
run the whole ticks of `n * dt` and the leftover time is the rest. -/
theorem steps_ticks (E : Nat → Engine) (sys : Sys) (w : World)
    (hw : sys.g.world = some w)
    (hirr : sys.g.isLive irr_driver = true)
    (hstk : sys.g.isLive stk_config = true)
    (hf : 0 < sys.g.physics_fps)
    (hdt : 0 ≤ sys.s.config_.step_size)
    (hl : sys.s.time_leftover_ = 0) (n : ℕ)
    (hex : noRounding sys.g.physics_fps sys.s.config_.step_size n) :
    (steps E n sys).ret = .ok () ∧
    (steps E n sys).sys.g.live = sys.g.live ∧
    (steps E n sys).sys.g.physics_fps = sys.g.physics_fps ∧
    (steps E n sys).sys.s.config_ = sys.s.config_ ∧
    (steps E n sys).sys.g.world =
      some { w with ticks := w.ticks +
        (time2Ticks sys.g.physics_fps (n * sys.s.config_.step_size)).toNat } ∧
    (steps E n sys).sys.s.time_leftover_ =
      n * sys.s.config_.step_size -
        ticks2Time sys.g.physics_fps (time2Ticks sys.g.physics_fps (n * sys.s.config_.step_size)) := by
  induction n with
  | zero => simp [steps, hl, hw, time2Ticks, ticks2Time]
  | succ n ih =>
    obtain ⟨hret, hlive, hfps, hcfg, hworld, hleft⟩ :=
      ih (fun k hk => hex k (Nat.lt_succ_of_lt hk))
    obtain ⟨hex1, hex2⟩ := hex n (Nat.lt_succ_self n)
    simp only [exactLeftover] at hex1 hex2
    rcases hout : steps E n sys with ⟨ret, sys1⟩
    rw [hout] at hret hlive hfps hcfg hworld hleft
    simp only at hret hlive hfps hcfg hworld hleft
    subst hret
    have hirr1 : sys1.g.isLive irr_driver = true := by
      simpa [Globals.isLive, hlive] using hirr
    have hstk1 : sys1.g.isLive stk_config = true := by
      simpa [Globals.isLive, hlive] using hstk
    obtain ⟨⟨b, hb⟩, h1, h2, h3, h4, h5⟩ := step_with_world (E n) sys1 _ hworld hirr1 hstk1
    rcases hstep : step (E n) sys1 with ⟨ret2, sys2⟩
    rw [hstep] at hb h1 h2 h3 h4 h5
    simp only at hb h1 h2 h3 h4 h5
    subst hb
    have hticks := time2Ticks_step sys.g.physics_fps sys.s.config_.step_size n hf
    have h0 := time2Ticks_nonneg sys.g.physics_fps (n * sys.s.config_.step_size) hf
      (mul_nonneg (Nat.cast_nonneg n) hdt)
    have hmono := time2Ticks_mono sys.g.physics_fps sys.s.config_.step_size n hf hdt
    have harg : (n : ℚ) * sys.s.config_.step_size -
          ticks2Time sys.g.physics_fps
            (time2Ticks sys.g.physics_fps (n * sys.s.config_.step_size)) +
          sys.s.config_.step_size -
          ticks2Time sys.g.physics_fps
            (time2Ticks sys.g.physics_fps ((n + 1 : ℕ) * sys.s.config_.step_size) -
              time2Ticks sys.g.physics_fps (n * sys.s.config_.step_size)) =
        ((n + 1 : ℕ) : ℚ) * sys.s.config_.step_size -
          ticks2Time sys.g.physics_fps
            (time2Ticks sys.g.physics_fps ((n + 1 : ℕ) * sys.s.config_.step_size)) := by
      have hf0 : sys.g.physics_fps ≠ 0 := ne_of_gt hf
      simp only [ticks2Time]
      push_cast
      field_simp
      ring
    rw [hfps, hcfg, hleft, hex1, hticks] at h4 h5
    rw [harg, hex2] at h5
    simp only [steps, hout, hstep]
    refine ⟨trivial, h1.trans hlive, h2.trans hfps, h3.trans hcfg, ?_, h5⟩
    rw [h4]
    simp only [Option.some.injEq, World.mk.injEq, and_true]
    omega

theorem setupRaceStart_frame (g : Globals)
    (hkm : g.isLive kart_properties_manager = true)
    (hrm : g.isLive race_manager = true) :
    (setupRaceStart g).ret = .ok () ∧
    (setupRaceStart g).g.live = g.live ∧
    (setupRaceStart g).g.physics_fps = g.physics_fps := by
  unfold setupRaceStart
  dsimp only
  split_ifs <;> simp_all

/-- What `start()` leaves behind: a fresh world and no leftover time. -/
theorem start_effect (E : Engine) (sys : Sys)
    (hkm : sys.g.isLive kart_properties_manager = true)
    (hrm : sys.g.isLive race_manager = true) :
    (start E sys).ret = .ok () ∧
    (start E sys).sys.g.live = sys.g.live ∧
    (start E sys).sys.g.physics_fps = sys.g.physics_fps ∧
    (start E sys).sys.s.config_ = sys.s.config_ ∧
    (start E sys).sys.g.world = some ⟨0, KartControl.init⟩ ∧
    (start E sys).sys.s.time_leftover_ = 0 := by
  obtain ⟨hret, hlive, hfps⟩ := setupRaceStart_frame sys.g hkm hrm
  rcases hout : setupRaceStart sys.g with ⟨ret, g1⟩
  rw [hout] at hret hlive hfps
  simp only at hret hlive hfps
  subst hret
  simp only [start, hout]
  split_ifs <;> simp [hlive, hfps]

/-- The rounding at work: binary32 values stay, 1/10 and 1/240 go to the
nearest of them, the odd `2 ^ 24 + 1` and `2 ^ 24 + 3` go to their even
neighbours, and the sign is kept. -/
theorem round32_samples :
    round32 0 = 0 ∧ round32 (3 / 16) = 3 / 16 ∧
    round32 (1 / 10) = 13421773 / 2 ^ 27 ∧
    round32 (1 / 240) = 8947849 / 2 ^ 31 ∧
    round32 16777217 = 16777216 ∧ round32 16777219 = 16777220 ∧
    round32 (-(1 / 3)) = -(11184811 / 2 ^ 25) := by
  refine ⟨by decide!, by decide!, by decide!, by decide!, by decide!, by decide!, by decide!⟩

/-- The two steps of the sample at 3/16 s, one by one: the first takes 22 ticks
out of 3/16 s and keeps 1/240 s rounded up; the second adds 3/16 s, the sum is
rounded down to just under 23 ticks, and again 22 ticks are taken out. -/
theorem drift_trace :
    time2Ticks 120 (round32 (0 + 3 / 16)) = 22 ∧
    round32 (round32 (0 + 3 / 16) - ticks2Time 120 22) = 8947849 / 2 ^ 31 ∧
    round32 (8947849 / 2 ^ 31 + 3 / 16) = 12862532 / 2 ^ 26 ∧
    (12862532 / 2 ^ 26 : ℚ) * 120 < 23 ∧
    time2Ticks 120 (round32 (8947849 / 2 ^ 31 + 3 / 16)) = 22 := by
  refine ⟨by decide!, by decide!, by decide!, by norm_num, by decide!⟩

/-- C2, as claimed, fails: at 120 ticks per second two steps of 3/16 s make up
exactly 45 ticks, but `start()` followed by two calls of `step()` runs 44 ticks
and keeps time over, because the leftover time is rounded to binary32. -/
theorem steps_ticks_drift :
    (0 : ℚ) < sampleCoarse.g.physics_fps ∧
    (0 : ℚ) ≤ sampleCoarse.s.config_.step_size ∧
    ((2 : ℕ) : ℚ) * sampleCoarse.s.config_.step_size * sampleCoarse.g.physics_fps = (45 : ℕ) ∧
    (steps (fun _ => sampleEngine) 2 (start sampleEngine sampleCoarse).sys).ret.isOk = true ∧
    (steps (fun _ => sampleEngine) 2 (start sampleEngine sampleCoarse).sys).sys.g.world.map
        World.ticks = some 44 ∧
    (steps (fun _ => sampleEngine) 2 (start sampleEngine sampleCoarse).sys).sys.s.time_leftover_
      ≠ 0 := by
  refine ⟨by decide!, by decide!, by decide!, by decide!, by decide!, by decide!⟩

/-- C2, amended: with `time2Ticks` the whole number of ticks in a time at the
tick rate `f > 0` and `ticks2Time n = n / f`, for every step size `dt ≥ 0` and
every `N` such that none of the additions and subtractions on the leftover
time rounds during the `N` steps, `start()` followed by `N` calls of `step()`
completes and the world has then run exactly the whole number of ticks in
`N * dt`, a number that depends on the steps only through the total time
`N * dt`; when `N * dt * f` is a whole number `K`, exactly `K` ticks have been
run and the leftover time is 0. -/
theorem steps_after_start_ticks (E0 : Engine) (E : Nat → Engine) (sys : Sys) (N : ℕ)
    (hkm : sys.g.isLive kart_properties_manager = true)
    (hrm : sys.g.isLive race_manager = true)
    (hirr : sys.g.isLive irr_driver = true)
    (hstk : sys.g.isLive stk_config = true)
    (hf : 0 < sys.g.physics_fps)
    (hdt : 0 ≤ sys.s.config_.step_size)
    (hex : noRounding sys.g.physics_fps sys.s.config_.step_size N) :
    (start E0 sys).ret = .ok () ∧
    (steps E N (start E0 sys).sys).ret = .ok () ∧
    (steps E N (start E0 sys).sys).sys.g.world.map World.ticks =
      some (time2Ticks sys.g.physics_fps (N * sys.s.config_.step_size)).toNat ∧
    (∀ K : ℕ, (N : ℚ) * sys.s.config_.step_size * sys.g.physics_fps = K →
      (steps E N (start E0 sys).sys).sys.g.world.map World.ticks = some K ∧
      (steps E N (start E0 sys).sys).sys.s.time_leftover_ = 0) := by
  obtain ⟨hret, hlive, hfps, hcfg, hworld, hleft⟩ := start_effect E0 sys hkm hrm
  have hirr1 : (start E0 sys).sys.g.isLive irr_driver = true := by
    simpa [Globals.isLive, hlive] using hirr
  have hstk1 : (start E0 sys).sys.g.isLive stk_config = true := by
    simpa [Globals.isLive, hlive] using hstk
  obtain ⟨h1, _, _, _, h5, h6⟩ := steps_ticks E (start E0 sys).sys _ hworld hirr1 hstk1
    (by rw [hfps]; exact hf) (by rw [hcfg]; exact hdt) hleft N
    (by rw [hfps, hcfg]; exact hex)
  rw [hfps, hcfg] at h5 h6
  refine ⟨hret, h1, by simp [h5], fun K hK => ?_⟩
  have hfl : time2Ticks sys.g.physics_fps (N * sys.s.config_.step_size) = K := by
    simp [time2Ticks, hK]
  refine ⟨by simp [h5, hfl], ?_⟩
  rw [h6, hfl]
  have hf0 : sys.g.physics_fps ≠ 0 := ne_of_gt hf
  simp only [ticks2Time]
  push_cast
  rw [← hK]
  field_simp

/-- Witness of C2, amended: at 64 ticks per second, two steps of 3/128 s, one
and a half ticks each, round nowhere; after `start()` they run exactly 3 ticks
and leave no time over. -/
theorem steps_after_start_ticks_witness :
    noRounding sampleDyadic.g.physics_fps sampleDyadic.s.config_.step_size 2 ∧
    (steps (fun _ => sampleEngine) 2 (start sampleEngine sampleDyadic).sys).sys.g.world.map
        World.ticks = some 3 ∧
    (steps (fun _ => sampleEngine) 2 (start sampleEngine sampleDyadic).sys).sys.s.time_leftover_
      = 0 :=
  ⟨by decide!,
   (steps_after_start_ticks sampleEngine (fun _ => sampleEngine) sampleDyadic 2
    (by decide) (by decide) (by decide) (by decide) (by decide!) (by decide!)
    (by decide!)).2.2.2 3 (by decide!)⟩

/-! ### Buffer sizes -/

theorem length_resize {α : Type} (fill : α) (v : List α) (n : Nat) :
    (resize fill v n).length = n := by
  simp only [resize, List.length_append, List.length_take, List.length_replicate]
  omega

theorem length_glReadPixels {α : Type} (fill : α) (src : List α) (n : Nat) (buf : List α) :
    (glReadPixels fill src n buf).length = buf.length := by
  simp only [glReadPixels, List.length_take, List.length_append, List.length_map,
    List.length_range, List.length_drop]
  omega

theorem length_yflip {α : Type} (fill : α) (buf : List α) (H rowlen : Nat) :
    (yflip fill buf H rowlen).length = buf.length := by
  simp [yflip]

theorem fetch_sized (t : PySTKRenderTarget) (rtts : RTT) (d : PySTKRenderData)
    (hr : t.rt_.rtts = some rtts) (hb : rtts.width * rtts.height * 3 < 2 ^ 32) :
    ∃ d', t.fetch (some d) = some d' ∧ d'.sized rtts.width rtts.height := by
  have h3 : u32 (rtts.width * rtts.height * 3) = rtts.width * rtts.height * 3 :=
    Nat.mod_eq_of_lt hb
  have h1 : u32 (rtts.width * rtts.height) = rtts.width * rtts.height :=
    Nat.mod_eq_of_lt (by omega)
  simp only [PySTKRenderTarget.fetch, hr]
  refine ⟨_, rfl, ?_⟩
  simp [PySTKRenderData.sized, length_yflip, length_glReadPixels, length_resize, h3, h1]

theorem fetchAll_getElem? (ts : List PySTKRenderTarget) :
    ∀ (ds : List PySTKRenderData) (i : Nat) (t : PySTKRenderTarget),
      ts.length ≤ ds.length → ts[i]? = some t →
      ∃ d0, ds[i]? = some d0 ∧ (fetchAll ts ds)[i]? = some ((t.fetch (some d0)).getD d0) := by
  induction ts with
  | nil => intro ds i t _ h; simp at h
  | cons t0 ts ih =>
    intro ds i t hlen h
    cases ds with
    | nil => simp at hlen
    | cons d ds =>
      cases i with
      | zero =>
        simp only [List.getElem?_cons_zero, Option.some.injEq] at h
        subst h
        exact ⟨d, by simp, by simp [fetchAll]⟩
      | succ i =>
        simp only [List.getElem?_cons_succ] at h
        obtain ⟨d0, h1, h2⟩ := ih ds i t (by simpa using hlen) h
        exact ⟨d0, by simpa using h1, by simpa [fetchAll] using h2⟩

theorem length_fetchAll (ts : List PySTKRenderTarget) :
    ∀ ds : List PySTKRenderData, ts.length ≤ ds.length → ts.length ≤ (fetchAll ts ds).length := by
  induction ts with
  | nil => intro ds _; simp
  | cons t0 ts ih =>
    intro ds hlen
    cases ds with
    | nil => simp at hlen
    | cons d ds => simpa [fetchAll] using ih ds (by simpa using hlen)

theorem length_growRenderData (n : Nat) (data : List PySTKRenderData) :
    n ≤ (growRenderData n data).length := by
  simp only [growRenderData, List.length_append, List.length_replicate]
  omega

/-- C7: `fetch` on a target whose render textures exist, with width `W` and
height `H` and `W * H * 3` below `2 ^ 32`, into a non-null render data records
`W` and `H` and sizes the colour buffer to `W * H * 3` and the depth and label
buffers to `W * H`; hence after `render(dt)` with an active world the render
data at the index of every such target has these sizes for the size the
target has then. -/
theorem fetch_render_sized :
    (∀ (t : PySTKRenderTarget) (rtts : RTT) (d : PySTKRenderData),
      t.rt_.rtts = some rtts → rtts.width * rtts.height * 3 < 2 ^ 32 →
      ∃ d', t.fetch (some d) = some d' ∧ d'.sized rtts.width rtts.height) ∧
    (∀ (E : Engine) (dt : ℚ) (sys : Sys), sys.g.world.isSome = true →
      (render E dt sys).s.render_targets_.length ≤ (render E dt sys).s.render_data_.length ∧
      ∀ (i : Nat) (t : PySTKRenderTarget) (rtts : RTT),
        (render E dt sys).s.render_targets_[i]? = some t →
        t.rt_.rtts = some rtts → rtts.width * rtts.height * 3 < 2 ^ 32 →
        ∃ d, (render E dt sys).s.render_data_[i]? = some d ∧
          d.sized rtts.width rtts.height) := by
  refine ⟨fetch_sized, fun E dt sys hw => ?_⟩
  have hlen := length_growRenderData
    (renderViews E dt sys.g.num_cameras sys.s.render_targets_).length sys.s.render_data_
  have hr : (render E dt sys).s =
      { sys.s with
        render_targets_ := renderViews E dt sys.g.num_cameras sys.s.render_targets_
        render_data_ := fetchAll (renderViews E dt sys.g.num_cameras sys.s.render_targets_)
          (growRenderData (renderViews E dt sys.g.num_cameras sys.s.render_targets_).length
            sys.s.render_data_) } := by
    simp [render, hw]
  rw [hr]
  dsimp only
  constructor
  · exact length_fetchAll _ _ hlen
  · intro i t rtts ht hrt hb
    obtain ⟨d0, _, h2⟩ := fetchAll_getElem? _ _ i t hlen ht
    obtain ⟨d', hd', hs⟩ := fetch_sized t rtts d0 hrt hb
    exact ⟨d', by simpa [hd'] using h2, hs⟩

/-- Witness of C7: a fetch from 4 by 2 render textures into a fresh render
data, and the first render data of the running sample session after a
`render`, have 24 colour bytes and 8 depth values and labels. -/
theorem fetch_render_sized_witness :
    (∃ d', PySTKRenderTarget.fetch ⟨⟨some sampleRTT⟩⟩ (some PySTKRenderData.init) = some d' ∧
      d'.sized 4 2) ∧
    ∃ d, (render sampleEngine (1 / 10) sampleRunning).s.render_data_[0]? = some d ∧
      d.sized 4 2 :=
  ⟨fetch_render_sized.1 ⟨⟨some sampleRTT⟩⟩ sampleRTT PySTKRenderData.init rfl (by decide),
   (fetch_render_sized.2 sampleEngine (1 / 10) sampleRunning (by decide)).2 0
      ⟨⟨some sampleRTT⟩⟩ sampleRTT (by decide) rfl (by decide)⟩

/-! ### The order of bring-up and tear-down -/

theorem init_boot_live (E : Engine) (config : PySTKGraphicsConfig)
    (hdev : E.device_at_construction = true) :
    (init E config Globals.boot).ret = .ok () ∧
    (init E config Globals.boot).g.n_running = 0 ∧
    (init E config Globals.boot).g.live =
      [file_manager, user_config, translations, stk_config, irr_driver, stk_time,
       font_manager, player_manager, history, replay_play, replay_recorder, material_manager,
       track_manager, kart_properties_manager, projectile_manager, powerup_manager,
       attachment_manager, highscore_manager, race_manager, referee] ∧
    created (init E config Globals.boot).g.calls =
      [file_manager, user_config, translations, stk_config, irr_driver, stk_time,
       font_manager, player_manager, history, replay_play, replay_recorder, material_manager,
       track_manager, kart_properties_manager, projectile_manager, powerup_manager,
       attachment_manager, highscore_manager, race_manager, referee] ∧
    released (init E config Globals.boot).g.calls = [] := by
  cases hmat : E.materials_file_found <;>
    simp [init, initUserConfig, initGraphicsConfig, initRest, initManagers, load, hdev, hmat,
      Globals.boot, Globals.create, Globals.call, Globals.setParams, Globals.setFps,
      Globals.setRenderWindow, Globals.setKarts, Globals.setRace, created, released]

theorem clean_initialised (g : Globals) (hn : g.n_running = 0)
    (hl : g.live =
      [file_manager, user_config, translations, stk_config, irr_driver, stk_time,
       font_manager, player_manager, history, replay_play, replay_recorder, material_manager,
       track_manager, kart_properties_manager, projectile_manager, powerup_manager,
       attachment_manager, highscore_manager, race_manager, referee]) :
    (clean g).ret = .ok () ∧
    created (clean g).g.calls = created g.calls ∧
    released (clean g).g.calls = released g.calls ++
      [race_manager, highscore_manager, attachment_manager, powerup_manager,
       projectile_manager, kart_properties_manager, track_manager, material_manager, history,
       replay_play, replay_recorder, particle_kind_manager, player_manager, font_manager,
       stk_time, stk_config, translations, user_config, irr_driver, file_manager] := by
  simp [clean, cleanSuperTuxKart, cleanUserConfig, cleanRest, hn, hl, Globals.deleteIfSet,
    Globals.isLive, Globals.destroy, Globals.call, Globals.setParams, created, released]

theorem created_bringUpTearDown (E : Engine) (config : PySTKGraphicsConfig)
    (hdev : E.device_at_construction = true) :
    created (bringUpTearDown E config) =
      [file_manager, user_config, translations, stk_config, irr_driver, stk_time,
       font_manager, player_manager, history, replay_play, replay_recorder, material_manager,
       track_manager, kart_properties_manager, projectile_manager, powerup_manager,
       attachment_manager, highscore_manager, race_manager, referee] := by
  obtain ⟨_, hn, hl, hc, _⟩ := init_boot_live E config hdev
  rw [bringUpTearDown, (clean_initialised _ hn hl).2.1, hc]

theorem released_bringUpTearDown (E : Engine) (config : PySTKGraphicsConfig)
    (hdev : E.device_at_construction = true) :
    released (bringUpTearDown E config) =
      [race_manager, highscore_manager, attachment_manager, powerup_manager,
       projectile_manager, kart_properties_manager, track_manager, material_manager, history,
       replay_play, replay_recorder, particle_kind_manager, player_manager, font_manager,
       stk_time, stk_config, translations, user_config, irr_driver, file_manager] := by
  obtain ⟨_, hn, hl, _, hr⟩ := init_boot_live E config hdev
  rw [bringUpTearDown, (clean_initialised _ hn hl).2.2, hr, List.nil_append]

/-- C9, as claimed, fails: `history` is created before `ReplayPlay` and is also
released before it, and `irr_driver` is created after `stk_config` and is also
released after it. -/
theorem clean_not_reverse_of_init :
    ¬ ∀ A B : Subsystem,
      precedes (created (bringUpTearDown sampleEngine PySTKGraphicsConfig.hd)) A B = true →
      A ∈ released (bringUpTearDown sampleEngine PySTKGraphicsConfig.hd) →
      B ∈ released (bringUpTearDown sampleEngine PySTKGraphicsConfig.hd) →
      precedes (released (bringUpTearDown sampleEngine PySTKGraphicsConfig.hd)) B A = true := by
  intro h
  have h1 := h history replay_play
  rw [created_bringUpTearDown _ _ rfl, released_bringUpTearDown _ _ rfl] at h1
  exact absurd (h1 (by decide) (by decide) (by decide)) (by decide)

/-- C9, amended: `init`, the display device being found, and `clean` after it,
in a process that has just started, both complete, and of two subsystems that
`init` creates and `clean` releases the one created later is released earlier,
except for the six pairs of `keptOrder`: `history`, `ReplayPlay` and
`ReplayRecorder` are released in the order of their creation, and `irr_driver`,
created after `user_config`, `translations` and `stk_config`, is released after
them. -/
theorem clean_reverse_of_init_except (E : Engine) (config : PySTKGraphicsConfig)
    (hdev : E.device_at_construction = true) :
    (init E config Globals.boot).ret = .ok () ∧
    (clean (init E config Globals.boot).g).ret = .ok () ∧
    ∀ A B : Subsystem,
      precedes (created (bringUpTearDown E config)) A B = true →
      A ∈ released (bringUpTearDown E config) →
      B ∈ released (bringUpTearDown E config) →
      (precedes (released (bringUpTearDown E config)) B A = true ↔ (A, B) ∉ keptOrder) := by
  obtain ⟨hret, hn, hl, _, _⟩ := init_boot_live E config hdev
  refine ⟨hret, (clean_initialised _ hn hl).1, ?_⟩
  rw [created_bringUpTearDown _ _ hdev, released_bringUpTearDown _ _ hdev]
  intro A B
  cases A <;> cases B <;> decide

/-- Witness of C9, amended: the file manager is created before the race
manager and released after it. -/
theorem clean_reverse_of_init_except_witness :
    precedes (released (bringUpTearDown sampleEngine PySTKGraphicsConfig.hd))
      race_manager file_manager = true :=
  ((clean_reverse_of_init_except sampleEngine PySTKGraphicsConfig.hd rfl).2.2
    file_manager race_manager (by decide) (by decide) (by decide)).mpr (by decide)

/-! ### The translation of the race mode -/

/-- C11: `translate_mode` maps each of the seven race modes to the engine mode
of the same name, maps no two of the seven to the same engine mode, and maps
every value that is none of the seven to the normal race. -/
theorem translate_mode_correct :
    (translate_mode .NORMAL_RACE = .MINOR_MODE_NORMAL_RACE ∧
     translate_mode .TIME_TRIAL = .MINOR_MODE_TIME_TRIAL ∧
     translate_mode .FOLLOW_LEADER = .MINOR_MODE_FOLLOW_LEADER ∧
     translate_mode .THREE_STRIKES = .MINOR_MODE_3_STRIKES ∧
     translate_mode .FREE_FOR_ALL = .MINOR_MODE_FREE_FOR_ALL ∧
     translate_mode .CAPTURE_THE_FLAG = .MINOR_MODE_CAPTURE_THE_FLAG ∧
     translate_mode .SOCCER = .MINOR_MODE_SOCCER) ∧
    (∀ a b : RaceMode, a.named = true → b.named = true →
      translate_mode a = translate_mode b → a = b) ∧
    (RaceMode.enumerators.map translate_mode).Nodup ∧
    (∀ m : RaceMode, m.named = false → translate_mode m = .MINOR_MODE_NORMAL_RACE) := by
  refine ⟨by decide, ?_, by decide, ?_⟩
  · intro a b ha hb h
    cases a <;> cases b <;> simp_all [translate_mode, RaceMode.named]
  · intro m hm
    cases m <;> simp_all [translate_mode, RaceMode.named]

/-- Witness of C11: two named modes with the same translation are the same
mode, and a value outside the seven becomes the normal race. -/
theorem translate_mode_correct_witness :
    (RaceMode.SOCCER.named = true ∧ RaceMode.SOCCER = RaceMode.SOCCER) ∧
    ((RaceMode.other 7).named = false ∧
      translate_mode (.other 7) = .MINOR_MODE_NORMAL_RACE) :=
  ⟨⟨rfl, translate_mode_correct.2.1 .SOCCER .SOCCER rfl rfl rfl⟩,
   ⟨rfl, translate_mode_correct.2.2.2 (.other 7) rfl⟩⟩

/-! ### Actions written to and read from the control object -/

/-- C12: the control object returning each field as it was last set, an action
read with `get` from the control object that `a.set` wrote equals `a` in all
seven fields, whatever the action and the control object held before; and the
skid direction that `set` writes is none without drift, right with drift and a
steering angle above 0, left with drift and a steering angle of at most 0. -/
theorem action_set_get (a b : PySTKAction) (c : KartControl) :
    b.get (a.set c) = a ∧
    (a.drift = false → (a.set c).skid = .SC_NONE) ∧
    (a.drift = true → 0 < a.steering_angle → (a.set c).skid = .SC_RIGHT) ∧
    (a.drift = true → a.steering_angle ≤ 0 → (a.set c).skid = .SC_LEFT) := by
  refine ⟨?_, fun h => by simp [PySTKAction.set, h],
    fun h hs => by simp [PySTKAction.set, h, hs],
    fun h hs => by simp [PySTKAction.set, h, not_lt.mpr hs]⟩
  rcases a with ⟨acc, brake, fire, nitro, rescue, steer, drift⟩
  cases drift
  · simp [PySTKAction.get, PySTKAction.set]
  · by_cases hs : 0 < steer <;> simp [PySTKAction.get, PySTKAction.set, hs]

/-- Witness of C12: a drift with the steering angle 1 is written as a skid to
the right, one with the steering angle -1 as a skid to the left, and the
action without drift as no skid. -/
theorem action_set_get_witness :
    (sampleDriftRight.set KartControl.init).skid = .SC_RIGHT ∧
    (sampleDriftLeft.set KartControl.init).skid = .SC_LEFT ∧
    (sampleAction.set KartControl.init).skid = .SC_NONE :=
  ⟨(action_set_get sampleDriftRight sampleAction KartControl.init).2.2.1 rfl
      (by rw [show sampleDriftRight.steering_angle = 1 from rfl]; norm_num),
   (action_set_get sampleDriftLeft sampleAction KartControl.init).2.2.2 rfl
      (by rw [show sampleDriftLeft.steering_angle = -1 from rfl]; norm_num),
   (action_set_get sampleAction sampleAction KartControl.init).2.1 rfl⟩

end PySTK
